import Mathlib

set_option maxHeartbeats 2000000

/-
Verification development for the results-view orchestration subsystem of the
GridPath UI (src/ui/src/app/scenario-results/scenario-results.component.ts).

The component is shallowly embedded as a pure state-transition system:
  - the Angular component instance becomes the structure
    ScenarioResultsComponent (its TypeScript fields become Lean fields);
  - each component method becomes a function from component state to
    component state, parameterised by the external ScenarioResultsService
    (a record of the service operations, which live in a separate file and
    are external collaborators here);
  - issuing an HTTP-backed observable subscription is modelled by appending
    a ServiceCall event to a call log and a Completion record to a queue of
    pending subscription callbacks; running a callback later is the
    separate function runCompletion, and runAll drains the queue in FIFO
    order (completions resolve in issue order in this model);
  - JavaScript form-control values (null, undefined, strings, numbers) are
    modelled by the inductive type FormVal, and the template-literal
    conversion of such a value to a string by FormVal.toTemplate.
-/

/-- Value held by an Angular FormControl as the component reads it:
JavaScript null, undefined, a string, or a number (modelled as Int). A
freshly constructed FormControl holds null. -/
inductive FormVal where
  | null
  | undef
  | str (s : String)
  | num (n : Int)
  deriving DecidableEq, Repr

/-- JavaScript template-literal conversion of a form value: null prints as
"null", undefined as "undefined", a number in decimal form. -/
def FormVal.toTemplate : FormVal → String
  | FormVal.null => "null"
  | FormVal.undef => "undefined"
  | FormVal.str s => s
  | FormVal.num n => toString n

/-- A fetched results table: an abstract ordered sequence of row records
(rows are uninterpreted by the orchestrator; we model each row as a string). -/
structure ScenarioResults where
  rows : List String
  deriving DecidableEq, Repr

/-- Response of a plot fetch operation: a record carrying the uninterpreted
visualization description under the field plotJSON. -/
structure PlotAPI where
  plotJSON : String
  deriving DecidableEq, Repr

/-- Response of the getOptions service call: the per-scenario filter option
lists shared by the plot forms. -/
structure PlotOptions where
  loadZoneOptions : List String
  horizonOptions : List String
  stageOptions : List String
  deriving DecidableEq, Repr

/-- A results button as built by makeResultsButtons (and as embedded in the
plot form structures). -/
structure ResultsButton where
  name : String
  ngIfKey : String
  caption : String
  deriving DecidableEq, Repr

/-- One select control description inside a plot form structure: the
FormControl name together with its option list. -/
structure SelectFormSpec where
  formControlName : String
  formControlOptions : List String
  deriving DecidableEq, Repr

/-- A plot form structure as pushed onto allResultsForms by the getOptions
completion callback in makeResultsForms. The TypeScript record also holds a
reference to the live FormGroup object; the form values themselves live in
the component state, so that reference is not duplicated here. -/
structure ResultsForm where
  selectForms : List SelectFormSpec
  yMaxFormControlName : String
  button : ResultsButton
  deriving DecidableEq, Repr

/-- One invocation of a ScenarioResultsService operation, recorded with the
arguments it received. There is one constructor per service method used by
the component. -/
inductive ServiceCall where
  | getResultsProjectCapacity (scenarioID : Int)
  | getResultsProjectRetirements (scenarioID : Int)
  | getResultsProjectNewBuild (scenarioID : Int)
  | getResultsProjectDispatch (scenarioID : Int)
  | getResultsProjectCarbon (scenarioID : Int)
  | getResultsTransmissionCapacity (scenarioID : Int)
  | getResultsTransmissionFlows (scenarioID : Int)
  | getResultsImportsExports (scenarioID : Int)
  | getResultsSystemLoadBalance (scenarioID : Int)
  | getResultsSystemRPS (scenarioID : Int)
  | getResultsSystemCarbonCap (scenarioID : Int)
  | getResultsSystemPRM (scenarioID : Int)
  | getResultsDispatchPlot (scenarioID : Int) (loadZone horizon yMax : FormVal)
  | getResultsCapacityNewPlot (scenarioID : Int) (loadZone yMax : FormVal)
  | getResultsCapacityRetiredPlot (scenarioID : Int) (loadZone yMax : FormVal)
  | getResultsCapacityTotalPlot (scenarioID : Int) (loadZone yMax : FormVal)
  | getResultsEnergyPlot (scenarioID : Int) (loadZone stage yMax : FormVal)
  | getResultsCostPlot (scenarioID : Int) (loadZone stage yMax : FormVal)
  | getResultsCapacityFactorPlot (scenarioID : Int) (loadZone stage yMax : FormVal)
  | getOptions (scenarioID : Int)
  deriving DecidableEq, Repr

/-- True for the per-view result fetch operations (table and plot fetches);
false for the getOptions option-list fetch. -/
def ServiceCall.isResultFetch : ServiceCall → Bool
  | ServiceCall.getOptions _ => false
  | _ => true

/-- A subscription callback that has been registered but not yet run,
together with the response the service will deliver to it. One constructor
per subscribe site in the component. -/
inductive Completion where
  | options (opts : PlotOptions)
  | projectCapacity (rows : ScenarioResults)
  | projectRetirements (rows : ScenarioResults)
  | projectNewBuild (rows : ScenarioResults)
  | projectDispatch (rows : ScenarioResults)
  | projectCarbon (rows : ScenarioResults)
  | transmissionCapacity (rows : ScenarioResults)
  | transmissionFlows (rows : ScenarioResults)
  | importsExports (rows : ScenarioResults)
  | systemLoadBalance (rows : ScenarioResults)
  | systemRPS (rows : ScenarioResults)
  | systemCarbonCap (rows : ScenarioResults)
  | systemPRM (rows : ScenarioResults)
  | dispatchPlot (api : PlotAPI)
  | capacityNewPlot (api : PlotAPI)
  | capacityRetiredPlot (api : PlotAPI)
  | capacityTotalPlot (api : PlotAPI)
  | energyPlot (api : PlotAPI)
  | costPlot (api : PlotAPI)
  | capacityFactorPlot (api : PlotAPI)
  deriving DecidableEq, Repr

/-- The external ScenarioResultsService, one field per operation the
component consumes. The service lives in a separate source file; here it is
an arbitrary deterministic collaborator supplied as a parameter. -/
structure ScenarioResultsService where
  getResultsProjectCapacity : Int → ScenarioResults
  getResultsProjectRetirements : Int → ScenarioResults
  getResultsProjectNewBuild : Int → ScenarioResults
  getResultsProjectDispatch : Int → ScenarioResults
  getResultsProjectCarbon : Int → ScenarioResults
  getResultsTransmissionCapacity : Int → ScenarioResults
  getResultsTransmissionFlows : Int → ScenarioResults
  getResultsImportsExports : Int → ScenarioResults
  getResultsSystemLoadBalance : Int → ScenarioResults
  getResultsSystemRPS : Int → ScenarioResults
  getResultsSystemCarbonCap : Int → ScenarioResults
  getResultsSystemPRM : Int → ScenarioResults
  getResultsDispatchPlot : Int → FormVal → FormVal → FormVal → PlotAPI
  getResultsCapacityNewPlot : Int → FormVal → FormVal → PlotAPI
  getResultsCapacityRetiredPlot : Int → FormVal → FormVal → PlotAPI
  getResultsCapacityTotalPlot : Int → FormVal → FormVal → PlotAPI
  getResultsEnergyPlot : Int → FormVal → FormVal → FormVal → PlotAPI
  getResultsCostPlot : Int → FormVal → FormVal → FormVal → PlotAPI
  getResultsCapacityFactorPlot : Int → FormVal → FormVal → FormVal → PlotAPI
  getOptions : Int → PlotOptions

/-- Values of dispatchPlotOptionsForm (all FormControls start as null). -/
structure DispatchPlotOptionsForm where
  dispatchPlotLoadZone : FormVal := FormVal.null
  dispatchPlotHorizon : FormVal := FormVal.null
  dispatchPlotYMax : FormVal := FormVal.null
  deriving DecidableEq, Repr

/-- Values of capacityNewPlotOptionsForm. -/
structure CapacityNewPlotOptionsForm where
  capacityNewPlotLoadZone : FormVal := FormVal.null
  capacityNewPlotYMax : FormVal := FormVal.null
  deriving DecidableEq, Repr

/-- Values of capacityRetiredPlotOptionsForm. -/
structure CapacityRetiredPlotOptionsForm where
  capacityRetiredPlotLoadZone : FormVal := FormVal.null
  capacityRetiredPlotYMax : FormVal := FormVal.null
  deriving DecidableEq, Repr

/-- Values of capacityTotalPlotOptionsForm. -/
structure CapacityTotalPlotOptionsForm where
  capacityTotalPlotLoadZone : FormVal := FormVal.null
  capacityTotalPlotYMax : FormVal := FormVal.null
  deriving DecidableEq, Repr

/-- Values of energyPlotOptionsForm. -/
structure EnergyPlotOptionsForm where
  energyPlotLoadZone : FormVal := FormVal.null
  energyPlotStage : FormVal := FormVal.null
  energyPlotYMax : FormVal := FormVal.null
  deriving DecidableEq, Repr

/-- Values of costPlotOptionsForm. -/
structure CostPlotOptionsForm where
  costPlotLoadZone : FormVal := FormVal.null
  costPlotStage : FormVal := FormVal.null
  costPlotYMax : FormVal := FormVal.null
  deriving DecidableEq, Repr

/-- Values of capacityFactorPlotOptionsForm. -/
structure CapacityFactorPlotOptionsForm where
  capacityFactorPlotLoadZone : FormVal := FormVal.null
  capacityFactorPlotStage : FormVal := FormVal.null
  capacityFactorPlotYMax : FormVal := FormVal.null
  deriving DecidableEq, Repr

/-- The state of a ScenarioResultsComponent instance: its TypeScript fields,
plus the call log (calls, the service invocations issued so far with their
arguments), the queue of registered-but-not-yet-run subscription callbacks
(pending), and the log of visualization descriptions handed to the external
embedding capability (embeds). Fields that are undefined until first
assignment in TypeScript are modelled as Option (for results and names) or
carry an explicit initial value in initState. -/
structure ScenarioResultsComponent where
  resultsToShow : String
  allResultsButtons : List ResultsButton
  allResultsForms : List ResultsForm
  allTables : List ScenarioResults
  resultsProjectCapacity : Option ScenarioResults
  resultsProjectRetirements : Option ScenarioResults
  resultsProjectNewBuild : Option ScenarioResults
  resultsProjectDispatch : Option ScenarioResults
  resultsProjectCarbon : Option ScenarioResults
  resultsTransmissionCapacity : Option ScenarioResults
  resultsTransmissionFlows : Option ScenarioResults
  resultsImportsExports : Option ScenarioResults
  resultsSystemLoadBalance : Option ScenarioResults
  resultsSystemRPS : Option ScenarioResults
  resultsSystemCarbonCap : Option ScenarioResults
  resultsSystemPRM : Option ScenarioResults
  dispatchPlotOptionsForm : DispatchPlotOptionsForm
  dispatchPlotJSON : Option String
  dispatchPlotHTMLName : Option String
  capacityNewPlotOptionsForm : CapacityNewPlotOptionsForm
  capacityNewPlotJSON : Option String
  capacityNewPlotHTMLName : Option String
  capacityRetiredPlotOptionsForm : CapacityRetiredPlotOptionsForm
  capacityRetiredPlotJSON : Option String
  capacityRetiredPlotHTMLName : Option String
  capacityTotalPlotOptionsForm : CapacityTotalPlotOptionsForm
  capacityTotalPlotJSON : Option String
  capacityTotalPlotHTMLName : Option String
  energyPlotOptionsForm : EnergyPlotOptionsForm
  energyPlotJSON : Option String
  energyPlotHTMLName : Option String
  costPlotOptionsForm : CostPlotOptionsForm
  costPlotJSON : Option String
  costPlotHTMLName : Option String
  capacityFactorPlotOptionsForm : CapacityFactorPlotOptionsForm
  capacityFactorPlotJSON : Option String
  capacityFactorPlotHTMLName : Option String
  scenarioID : Int
  calls : List ServiceCall
  pending : List Completion
  embeds : List String
  deriving DecidableEq

/-- A freshly constructed component before ngOnInit runs: no buttons, forms,
tables, results, or render target names; all FormControls hold null; nothing
has been fetched. -/
def initState : ScenarioResultsComponent where
  resultsToShow := ""
  allResultsButtons := []
  allResultsForms := []
  allTables := []
  resultsProjectCapacity := none
  resultsProjectRetirements := none
  resultsProjectNewBuild := none
  resultsProjectDispatch := none
  resultsProjectCarbon := none
  resultsTransmissionCapacity := none
  resultsTransmissionFlows := none
  resultsImportsExports := none
  resultsSystemLoadBalance := none
  resultsSystemRPS := none
  resultsSystemCarbonCap := none
  resultsSystemPRM := none
  dispatchPlotOptionsForm := {}
  dispatchPlotJSON := none
  dispatchPlotHTMLName := none
  capacityNewPlotOptionsForm := {}
  capacityNewPlotJSON := none
  capacityNewPlotHTMLName := none
  capacityRetiredPlotOptionsForm := {}
  capacityRetiredPlotJSON := none
  capacityRetiredPlotHTMLName := none
  capacityTotalPlotOptionsForm := {}
  capacityTotalPlotJSON := none
  capacityTotalPlotHTMLName := none
  energyPlotOptionsForm := {}
  energyPlotJSON := none
  energyPlotHTMLName := none
  costPlotOptionsForm := {}
  costPlotJSON := none
  costPlotHTMLName := none
  capacityFactorPlotOptionsForm := {}
  capacityFactorPlotJSON := none
  capacityFactorPlotHTMLName := none
  scenarioID := 0
  calls := []
  pending := []
  embeds := []

/-- The button records built by makeResultsButtons, in push order. -/
def resultsButtonCatalog : List ResultsButton :=
  [ { name := "showResultsProjectCapacityButton",
      ngIfKey := "results-project-capacity", caption := "Project Capacity" },
    { name := "showResultsProjectRetirementsButton",
      ngIfKey := "results-project-retirements", caption := "Project Retirements" },
    { name := "showResultsProjectNewBuildButton",
      ngIfKey := "results-project-new-build", caption := "Project New Build" },
    { name := "showResultsProjectDispatchButton",
      ngIfKey := "results-project-dispatch", caption := "Project Dispatch" },
    { name := "showResultsProjectCarbonButton",
      ngIfKey := "results-project-carbon", caption := "Project Carbon" },
    { name := "showResultsTransmissionCapacityButton",
      ngIfKey := "results-transmission-capacity", caption := "Transmission Capacity" },
    { name := "showResultsTransmissionFlowsButton",
      ngIfKey := "results-transmission-flows", caption := "Transmission Flows" },
    { name := "showResultsImportsExportsButton",
      ngIfKey := "results-imports-exports", caption := "Imports/Exports" },
    { name := "showResultsSystemLoadBalanceButton",
      ngIfKey := "results-system-load-balance", caption := "Load Balance" },
    { name := "showResultsSystemRPSButton",
      ngIfKey := "results-system-rps", caption := "RPS" },
    { name := "showResultsSystemCarbonCapButton",
      ngIfKey := "results-system-carbon-cap", caption := "Carbon Cap" },
    { name := "showResultsSystemPRMButton",
      ngIfKey := "results-system-prm", caption := "PRM" } ]

/-- Component method makeResultsButtons: push the twelve table buttons onto
allResultsButtons in source order. -/
def ScenarioResultsComponent.makeResultsButtons
    (s : ScenarioResultsComponent) : ScenarioResultsComponent :=
  { s with allResultsButtons := s.allResultsButtons ++ resultsButtonCatalog }

/-- The seven plot form structures built inside the getOptions completion
callback of makeResultsForms, in push order, from the received option
lists. -/
def resultsFormsOf (plotOptions : PlotOptions) : List ResultsForm :=
  [ { selectForms :=
        [ { formControlName := "dispatchPlotLoadZone",
            formControlOptions := plotOptions.loadZoneOptions },
          { formControlName := "dispatchPlotHorizon",
            formControlOptions := plotOptions.horizonOptions } ],
      yMaxFormControlName := "dispatchPlotYMax",
      button := { name := "showResultsDispatchPlotButton",
                  ngIfKey := "results-dispatch-plot", caption := "System Dispatch" } },
    { selectForms :=
        [ { formControlName := "capacityNewPlotLoadZone",
            formControlOptions := plotOptions.loadZoneOptions } ],
      yMaxFormControlName := "capacityNewPlotYMax",
      button := { name := "showResultsCapacityNewPlotButton",
                  ngIfKey := "results-capacity-new-plot", caption := "New Capacity" } },
    { selectForms :=
        [ { formControlName := "capacityRetiredPlotLoadZone",
            formControlOptions := plotOptions.loadZoneOptions } ],
      yMaxFormControlName := "capacityRetiredPlotYMax",
      button := { name := "showResultsCapacityRetiredPlotButton",
                  ngIfKey := "results-capacity-retired-plot", caption := "Retired Capacity" } },
    { selectForms :=
        [ { formControlName := "capacityTotalPlotLoadZone",
            formControlOptions := plotOptions.loadZoneOptions } ],
      yMaxFormControlName := "capacityTotalPlotYMax",
      button := { name := "showResultsCapacityTotalPlotButton",
                  ngIfKey := "results-capacity-total-plot", caption := "Total Capacity" } },
    { selectForms :=
        [ { formControlName := "energyPlotLoadZone",
            formControlOptions := plotOptions.loadZoneOptions },
          { formControlName := "energyPlotStage",
            formControlOptions := plotOptions.stageOptions } ],
      yMaxFormControlName := "energyPlotYMax",
      button := { name := "showResultsEnergyPlotButton",
                  ngIfKey := "results-energy-plot", caption := "System Energy Mix" } },
    { selectForms :=
        [ { formControlName := "costPlotLoadZone",
            formControlOptions := plotOptions.loadZoneOptions },
          { formControlName := "costPlotStage",
            formControlOptions := plotOptions.stageOptions } ],
      yMaxFormControlName := "costPlotYMax",
      button := { name := "showResultsCostPlotButton",
                  ngIfKey := "results-cost-plot", caption := "System Cost" } },
    { selectForms :=
        [ { formControlName := "capacityFactorPlotLoadZone",
            formControlOptions := plotOptions.loadZoneOptions },
          { formControlName := "capacityFactorPlotStage",
            formControlOptions := plotOptions.stageOptions } ],
      yMaxFormControlName := "capacityFactorPlotYMax",
      button := { name := "showResultsCapacityFactorPlotButton",
                  ngIfKey := "results-capacity-factor-plot", caption := "Capacity Factors" } } ]

/-- Component method makeResultsForms: subscribe to getOptions(scenarioID);
the call is issued now, the callback (which pushes the seven form
structures) runs on completion. -/
def ScenarioResultsComponent.makeResultsForms (svc : ScenarioResultsService)
    (scenarioID : Int) (s : ScenarioResultsComponent) : ScenarioResultsComponent :=
  { s with calls := s.calls ++ [ServiceCall.getOptions scenarioID],
           pending := s.pending ++ [Completion.options (svc.getOptions scenarioID)] }

/-- The y-axis-max default substitution applied by every plot getter:
a strictly-null form value becomes the literal string "default"; any other
value (undefined, a number, a string) is left unchanged. -/
def substYMax (yMax : FormVal) : FormVal :=
  if yMax = FormVal.null then FormVal.str "default" else yMax

/-- Render target name computed by getResultsDispatchPlot (the template
literal on line 344 of the source). -/
def dispatchPlotNameOf (loadZone horizon : FormVal) : String :=
  "dispatchPlot-" ++ loadZone.toTemplate ++ "-" ++ horizon.toTemplate

/-- Render target name computed by getResultsCapacityNewPlot. -/
def newCapacityPlotNameOf (loadZone : FormVal) : String :=
  "newCapacityPlot-" ++ loadZone.toTemplate

/-- Render target name computed by getResultsCapacityRetiredPlot. -/
def retiredCapacityPlotNameOf (loadZone : FormVal) : String :=
  "retiredCapacityPlot-" ++ loadZone.toTemplate

/-- Render target name computed by getResultsCapacityTotalPlot. -/
def allCapacityPlotNameOf (loadZone : FormVal) : String :=
  "allCapacityPlot-" ++ loadZone.toTemplate

/-- Render target name computed by getResultsEnergyPlot. -/
def energyPlotNameOf (loadZone stage : FormVal) : String :=
  "EnergyPlot-" ++ loadZone.toTemplate ++ "-" ++ stage.toTemplate

/-- Render target name computed by getResultsCostPlot. -/
def costPlotNameOf (loadZone stage : FormVal) : String :=
  "CostPlot-" ++ loadZone.toTemplate ++ "-" ++ stage.toTemplate

/-- Render target name computed by getResultsCapacityFactorPlot. -/
def capFactorPlotNameOf (loadZone stage : FormVal) : String :=
  "CapFactorPlot-" ++ loadZone.toTemplate ++ "-" ++ stage.toTemplate

/-- Component method getResultsProjectCapacity: subscribe to the service
fetch; the callback stores the rows and pushes them onto allTables. -/
def ScenarioResultsComponent.getResultsProjectCapacity (svc : ScenarioResultsService)
    (scenarioID : Int) (s : ScenarioResultsComponent) : ScenarioResultsComponent :=
  { s with calls := s.calls ++ [ServiceCall.getResultsProjectCapacity scenarioID],
           pending := s.pending ++ [Completion.projectCapacity (svc.getResultsProjectCapacity scenarioID)] }

/-- Component method getResultsProjectRetirements. -/
def ScenarioResultsComponent.getResultsProjectRetirements (svc : ScenarioResultsService)
    (scenarioID : Int) (s : ScenarioResultsComponent) : ScenarioResultsComponent :=
  { s with calls := s.calls ++ [ServiceCall.getResultsProjectRetirements scenarioID],
           pending := s.pending ++ [Completion.projectRetirements (svc.getResultsProjectRetirements scenarioID)] }

/-- Component method getResultsProjectNewBuild. -/
def ScenarioResultsComponent.getResultsProjectNewBuild (svc : ScenarioResultsService)
    (scenarioID : Int) (s : ScenarioResultsComponent) : ScenarioResultsComponent :=
  { s with calls := s.calls ++ [ServiceCall.getResultsProjectNewBuild scenarioID],
           pending := s.pending ++ [Completion.projectNewBuild (svc.getResultsProjectNewBuild scenarioID)] }

/-- Component method getResultsProjectDispatch. -/
def ScenarioResultsComponent.getResultsProjectDispatch (svc : ScenarioResultsService)
    (scenarioID : Int) (s : ScenarioResultsComponent) : ScenarioResultsComponent :=
  { s with calls := s.calls ++ [ServiceCall.getResultsProjectDispatch scenarioID],
           pending := s.pending ++ [Completion.projectDispatch (svc.getResultsProjectDispatch scenarioID)] }

/-- Component method getResultsProjectCarbon. -/
def ScenarioResultsComponent.getResultsProjectCarbon (svc : ScenarioResultsService)
    (scenarioID : Int) (s : ScenarioResultsComponent) : ScenarioResultsComponent :=
  { s with calls := s.calls ++ [ServiceCall.getResultsProjectCarbon scenarioID],
           pending := s.pending ++ [Completion.projectCarbon (svc.getResultsProjectCarbon scenarioID)] }

/-- Component method getResultsTransmissionCapacity. -/
def ScenarioResultsComponent.getResultsTransmissionCapacity (svc : ScenarioResultsService)
    (scenarioID : Int) (s : ScenarioResultsComponent) : ScenarioResultsComponent :=
  { s with calls := s.calls ++ [ServiceCall.getResultsTransmissionCapacity scenarioID],
           pending := s.pending ++ [Completion.transmissionCapacity (svc.getResultsTransmissionCapacity scenarioID)] }

/-- Component method getResultsTransmissionFlows. -/
def ScenarioResultsComponent.getResultsTransmissionFlows (svc : ScenarioResultsService)
    (scenarioID : Int) (s : ScenarioResultsComponent) : ScenarioResultsComponent :=
  { s with calls := s.calls ++ [ServiceCall.getResultsTransmissionFlows scenarioID],
           pending := s.pending ++ [Completion.transmissionFlows (svc.getResultsTransmissionFlows scenarioID)] }

/-- Component method getResultsImportsExports. -/
def ScenarioResultsComponent.getResultsImportsExports (svc : ScenarioResultsService)
    (scenarioID : Int) (s : ScenarioResultsComponent) : ScenarioResultsComponent :=
  { s with calls := s.calls ++ [ServiceCall.getResultsImportsExports scenarioID],
           pending := s.pending ++ [Completion.importsExports (svc.getResultsImportsExports scenarioID)] }

/-- Component method getResultsSystemLoadBalance. -/
def ScenarioResultsComponent.getResultsSystemLoadBalance (svc : ScenarioResultsService)
    (scenarioID : Int) (s : ScenarioResultsComponent) : ScenarioResultsComponent :=
  { s with calls := s.calls ++ [ServiceCall.getResultsSystemLoadBalance scenarioID],
           pending := s.pending ++ [Completion.systemLoadBalance (svc.getResultsSystemLoadBalance scenarioID)] }

/-- Component method getResultsSystemRPS. -/
def ScenarioResultsComponent.getResultsSystemRPS (svc : ScenarioResultsService)
    (scenarioID : Int) (s : ScenarioResultsComponent) : ScenarioResultsComponent :=
  { s with calls := s.calls ++ [ServiceCall.getResultsSystemRPS scenarioID],
           pending := s.pending ++ [Completion.systemRPS (svc.getResultsSystemRPS scenarioID)] }

/-- Component method getResultsSystemCarbonCap. -/
def ScenarioResultsComponent.getResultsSystemCarbonCap (svc : ScenarioResultsService)
    (scenarioID : Int) (s : ScenarioResultsComponent) : ScenarioResultsComponent :=
  { s with calls := s.calls ++ [ServiceCall.getResultsSystemCarbonCap scenarioID],
           pending := s.pending ++ [Completion.systemCarbonCap (svc.getResultsSystemCarbonCap scenarioID)] }

/-- Component method getResultsSystemPRM. -/
def ScenarioResultsComponent.getResultsSystemPRM (svc : ScenarioResultsService)
    (scenarioID : Int) (s : ScenarioResultsComponent) : ScenarioResultsComponent :=
  { s with calls := s.calls ++ [ServiceCall.getResultsSystemPRM scenarioID],
           pending := s.pending ++ [Completion.systemPRM (svc.getResultsSystemPRM scenarioID)] }

/-- Component method getResultsDispatchPlot: read the plot options from the
form, apply the y-axis-max default substitution, set the render target name
synchronously, then subscribe to the plot fetch; the callback stores the
visualization description and hands it to the embedding capability. -/
def ScenarioResultsComponent.getResultsDispatchPlot (svc : ScenarioResultsService)
    (scenarioID : Int) (s : ScenarioResultsComponent) : ScenarioResultsComponent :=
  let loadZone := s.dispatchPlotOptionsForm.dispatchPlotLoadZone
  let horizon := s.dispatchPlotOptionsForm.dispatchPlotHorizon
  let yMax := substYMax s.dispatchPlotOptionsForm.dispatchPlotYMax
  let s := { s with dispatchPlotHTMLName := some (dispatchPlotNameOf loadZone horizon) }
  { s with calls := s.calls ++ [ServiceCall.getResultsDispatchPlot scenarioID loadZone horizon yMax],
           pending := s.pending ++ [Completion.dispatchPlot (svc.getResultsDispatchPlot scenarioID loadZone horizon yMax)] }

/-- Component method getResultsCapacityNewPlot (in the source the render
target name is assigned before the y-axis-max substitution; both precede
the fetch). -/
def ScenarioResultsComponent.getResultsCapacityNewPlot (svc : ScenarioResultsService)
    (scenarioID : Int) (s : ScenarioResultsComponent) : ScenarioResultsComponent :=
  let loadZone := s.capacityNewPlotOptionsForm.capacityNewPlotLoadZone
  let s := { s with capacityNewPlotHTMLName := some (newCapacityPlotNameOf loadZone) }
  let yMax := substYMax s.capacityNewPlotOptionsForm.capacityNewPlotYMax
  { s with calls := s.calls ++ [ServiceCall.getResultsCapacityNewPlot scenarioID loadZone yMax],
           pending := s.pending ++ [Completion.capacityNewPlot (svc.getResultsCapacityNewPlot scenarioID loadZone yMax)] }

/-- Component method getResultsCapacityRetiredPlot. -/
def ScenarioResultsComponent.getResultsCapacityRetiredPlot (svc : ScenarioResultsService)
    (scenarioID : Int) (s : ScenarioResultsComponent) : ScenarioResultsComponent :=
  let loadZone := s.capacityRetiredPlotOptionsForm.capacityRetiredPlotLoadZone
  let yMax := substYMax s.capacityRetiredPlotOptionsForm.capacityRetiredPlotYMax
  let s := { s with capacityRetiredPlotHTMLName := some (retiredCapacityPlotNameOf loadZone) }
  { s with calls := s.calls ++ [ServiceCall.getResultsCapacityRetiredPlot scenarioID loadZone yMax],
           pending := s.pending ++ [Completion.capacityRetiredPlot (svc.getResultsCapacityRetiredPlot scenarioID loadZone yMax)] }

/-- Component method getResultsCapacityTotalPlot. -/
def ScenarioResultsComponent.getResultsCapacityTotalPlot (svc : ScenarioResultsService)
    (scenarioID : Int) (s : ScenarioResultsComponent) : ScenarioResultsComponent :=
  let loadZone := s.capacityTotalPlotOptionsForm.capacityTotalPlotLoadZone
  let yMax := substYMax s.capacityTotalPlotOptionsForm.capacityTotalPlotYMax
  let s := { s with capacityTotalPlotHTMLName := some (allCapacityPlotNameOf loadZone) }
  { s with calls := s.calls ++ [ServiceCall.getResultsCapacityTotalPlot scenarioID loadZone yMax],
           pending := s.pending ++ [Completion.capacityTotalPlot (svc.getResultsCapacityTotalPlot scenarioID loadZone yMax)] }

/-- Component method getResultsEnergyPlot. -/
def ScenarioResultsComponent.getResultsEnergyPlot (svc : ScenarioResultsService)
    (scenarioID : Int) (s : ScenarioResultsComponent) : ScenarioResultsComponent :=
  let loadZone := s.energyPlotOptionsForm.energyPlotLoadZone
  let stage := s.energyPlotOptionsForm.energyPlotStage
  let yMax := substYMax s.energyPlotOptionsForm.energyPlotYMax
  let s := { s with energyPlotHTMLName := some (energyPlotNameOf loadZone stage) }
  { s with calls := s.calls ++ [ServiceCall.getResultsEnergyPlot scenarioID loadZone stage yMax],
           pending := s.pending ++ [Completion.energyPlot (svc.getResultsEnergyPlot scenarioID loadZone stage yMax)] }

/-- Component method getResultsCostPlot. -/
def ScenarioResultsComponent.getResultsCostPlot (svc : ScenarioResultsService)
    (scenarioID : Int) (s : ScenarioResultsComponent) : ScenarioResultsComponent :=
  let loadZone := s.costPlotOptionsForm.costPlotLoadZone
  let stage := s.costPlotOptionsForm.costPlotStage
  let yMax := substYMax s.costPlotOptionsForm.costPlotYMax
  let s := { s with costPlotHTMLName := some (costPlotNameOf loadZone stage) }
  { s with calls := s.calls ++ [ServiceCall.getResultsCostPlot scenarioID loadZone stage yMax],
           pending := s.pending ++ [Completion.costPlot (svc.getResultsCostPlot scenarioID loadZone stage yMax)] }

/-- Component method getResultsCapacityFactorPlot. -/
def ScenarioResultsComponent.getResultsCapacityFactorPlot (svc : ScenarioResultsService)
    (scenarioID : Int) (s : ScenarioResultsComponent) : ScenarioResultsComponent :=
  let loadZone := s.capacityFactorPlotOptionsForm.capacityFactorPlotLoadZone
  let stage := s.capacityFactorPlotOptionsForm.capacityFactorPlotStage
  let yMax := substYMax s.capacityFactorPlotOptionsForm.capacityFactorPlotYMax
  let s := { s with capacityFactorPlotHTMLName := some (capFactorPlotNameOf loadZone stage) }
  { s with calls := s.calls ++ [ServiceCall.getResultsCapacityFactorPlot scenarioID loadZone stage yMax],
           pending := s.pending ++ [Completion.capacityFactorPlot (svc.getResultsCapacityFactorPlot scenarioID loadZone stage yMax)] }

/-- Component method getResultsToShow: subscribing to the BehaviorSubject
resultsToViewSubject fires synchronously with its current value, which is
passed in here as subjectKey. -/
def ScenarioResultsComponent.getResultsToShow (subjectKey : String)
    (s : ScenarioResultsComponent) : ScenarioResultsComponent :=
  { s with resultsToShow := subjectKey }

/-- One step of the dispatch chain in ngOnInit: an independent if statement
that compares the stored selection key with one catalog key and, on a
match, runs that view fetch method on the current state. -/
def ScenarioResultsComponent.ifSelected (key : String)
    (fetch : ScenarioResultsComponent → ScenarioResultsComponent)
    (s : ScenarioResultsComponent) : ScenarioResultsComponent :=
  if s.resultsToShow = key then fetch s else s

/-- The twelve independent table-view if statements from ngOnInit, in
source order (split out of ngOnInit only to keep definitions small). -/
def ScenarioResultsComponent.dispatchTableViews (svc : ScenarioResultsService)
    (s : ScenarioResultsComponent) : ScenarioResultsComponent :=
  let s := s.ifSelected "results-project-capacity"
    (fun t => t.getResultsProjectCapacity svc t.scenarioID)
  let s := s.ifSelected "results-project-retirements"
    (fun t => t.getResultsProjectRetirements svc t.scenarioID)
  let s := s.ifSelected "results-project-new-build"
    (fun t => t.getResultsProjectNewBuild svc t.scenarioID)
  let s := s.ifSelected "results-project-dispatch"
    (fun t => t.getResultsProjectDispatch svc t.scenarioID)
  let s := s.ifSelected "results-project-carbon"
    (fun t => t.getResultsProjectCarbon svc t.scenarioID)
  let s := s.ifSelected "results-transmission-capacity"
    (fun t => t.getResultsTransmissionCapacity svc t.scenarioID)
  let s := s.ifSelected "results-transmission-flows"
    (fun t => t.getResultsTransmissionFlows svc t.scenarioID)
  let s := s.ifSelected "results-imports-exports"
    (fun t => t.getResultsImportsExports svc t.scenarioID)
  let s := s.ifSelected "results-system-load-balance"
    (fun t => t.getResultsSystemLoadBalance svc t.scenarioID)
  let s := s.ifSelected "results-system-rps"
    (fun t => t.getResultsSystemRPS svc t.scenarioID)
  let s := s.ifSelected "results-system-carbon-cap"
    (fun t => t.getResultsSystemCarbonCap svc t.scenarioID)
  let s := s.ifSelected "results-system-prm"
    (fun t => t.getResultsSystemPRM svc t.scenarioID)
  s

/-- The seven independent plot-view if statements from ngOnInit, in source
order. -/
def ScenarioResultsComponent.dispatchPlotViews (svc : ScenarioResultsService)
    (s : ScenarioResultsComponent) : ScenarioResultsComponent :=
  let s := s.ifSelected "results-dispatch-plot"
    (fun t => t.getResultsDispatchPlot svc t.scenarioID)
  let s := s.ifSelected "results-capacity-new-plot"
    (fun t => t.getResultsCapacityNewPlot svc t.scenarioID)
  let s := s.ifSelected "results-capacity-retired-plot"
    (fun t => t.getResultsCapacityRetiredPlot svc t.scenarioID)
  let s := s.ifSelected "results-capacity-total-plot"
    (fun t => t.getResultsCapacityTotalPlot svc t.scenarioID)
  let s := s.ifSelected "results-energy-plot"
    (fun t => t.getResultsEnergyPlot svc t.scenarioID)
  let s := s.ifSelected "results-cost-plot"
    (fun t => t.getResultsCostPlot svc t.scenarioID)
  let s := s.ifSelected "results-capacity-factor-plot"
    (fun t => t.getResultsCapacityFactorPlot svc t.scenarioID)
  s

/-- Component method ngOnInit, the activation routine: read the scenario id
from the route (routeID, delivered synchronously by the params
subscription), rebuild the buttons and forms, reset the table list, read
the current selection key from the shared subject (subjectKey), then run
the nineteen independent if statements of the source in order, each
comparing this.resultsToShow with one catalog key and, on a match, calling
the corresponding fetch method with this.scenarioID. At most one if can
match. -/
def ScenarioResultsComponent.ngOnInit (svc : ScenarioResultsService) (routeID : Int)
    (subjectKey : String) (s : ScenarioResultsComponent) : ScenarioResultsComponent :=
  let s := { s with scenarioID := routeID }
  let s := { s with allResultsButtons := [], allResultsForms := [] }
  let s := s.makeResultsButtons
  let s := s.makeResultsForms svc s.scenarioID
  let s := { s with allTables := [] }
  let s := s.getResultsToShow subjectKey
  let s := s.dispatchTableViews svc
  let s := s.dispatchPlotViews svc
  s

/-- Component method showResults: pressing a results button publishes the
new key on the shared subject (changeResultsToView) and refreshes the view
by re-running ngOnInit, which then reads that key back. -/
def ScenarioResultsComponent.showResults (svc : ScenarioResultsService) (routeID : Int)
    (resultsToShow : String) (s : ScenarioResultsComponent) : ScenarioResultsComponent :=
  s.ngOnInit svc routeID resultsToShow

/-- Run one pending subscription callback against the current state: the
getOptions callback pushes the seven plot form structures; a table callback
stores the rows in its result field and pushes them onto allTables; a plot
callback stores the visualization description and hands it to the external
embedding capability (logged in embeds). -/
def runCompletion (c : Completion) (s : ScenarioResultsComponent) : ScenarioResultsComponent :=
  match c with
  | Completion.options opts =>
      { s with allResultsForms := s.allResultsForms ++ resultsFormsOf opts }
  | Completion.projectCapacity rows =>
      { s with resultsProjectCapacity := some rows, allTables := s.allTables ++ [rows] }
  | Completion.projectRetirements rows =>
      { s with resultsProjectRetirements := some rows, allTables := s.allTables ++ [rows] }
  | Completion.projectNewBuild rows =>
      { s with resultsProjectNewBuild := some rows, allTables := s.allTables ++ [rows] }
  | Completion.projectDispatch rows =>
      { s with resultsProjectDispatch := some rows, allTables := s.allTables ++ [rows] }
  | Completion.projectCarbon rows =>
      { s with resultsProjectCarbon := some rows, allTables := s.allTables ++ [rows] }
  | Completion.transmissionCapacity rows =>
      { s with resultsTransmissionCapacity := some rows, allTables := s.allTables ++ [rows] }
  | Completion.transmissionFlows rows =>
      { s with resultsTransmissionFlows := some rows, allTables := s.allTables ++ [rows] }
  | Completion.importsExports rows =>
      { s with resultsImportsExports := some rows, allTables := s.allTables ++ [rows] }
  | Completion.systemLoadBalance rows =>
      { s with resultsSystemLoadBalance := some rows, allTables := s.allTables ++ [rows] }
  | Completion.systemRPS rows =>
      { s with resultsSystemRPS := some rows, allTables := s.allTables ++ [rows] }
  | Completion.systemCarbonCap rows =>
      { s with resultsSystemCarbonCap := some rows, allTables := s.allTables ++ [rows] }
  | Completion.systemPRM rows =>
      { s with resultsSystemPRM := some rows, allTables := s.allTables ++ [rows] }
  | Completion.dispatchPlot api =>
      { s with dispatchPlotJSON := some api.plotJSON, embeds := s.embeds ++ [api.plotJSON] }
  | Completion.capacityNewPlot api =>
      { s with capacityNewPlotJSON := some api.plotJSON, embeds := s.embeds ++ [api.plotJSON] }
  | Completion.capacityRetiredPlot api =>
      { s with capacityRetiredPlotJSON := some api.plotJSON, embeds := s.embeds ++ [api.plotJSON] }
  | Completion.capacityTotalPlot api =>
      { s with capacityTotalPlotJSON := some api.plotJSON, embeds := s.embeds ++ [api.plotJSON] }
  | Completion.energyPlot api =>
      { s with energyPlotJSON := some api.plotJSON, embeds := s.embeds ++ [api.plotJSON] }
  | Completion.costPlot api =>
      { s with costPlotJSON := some api.plotJSON, embeds := s.embeds ++ [api.plotJSON] }
  | Completion.capacityFactorPlot api =>
      { s with capacityFactorPlotJSON := some api.plotJSON, embeds := s.embeds ++ [api.plotJSON] }

/-- Drain the queue of pending subscription callbacks in FIFO order (all
outstanding fetches resolve, in the order they were issued). -/
def runAll (s : ScenarioResultsComponent) : ScenarioResultsComponent :=
  List.foldl (fun t c => runCompletion c t) { s with pending := [] } s.pending

/-- The selection keys recognised by the dispatch chain in ngOnInit, in
source order: the twelve table views followed by the seven plot views. -/
def catalogKeys : List String :=
  [ "results-project-capacity", "results-project-retirements",
    "results-project-new-build", "results-project-dispatch",
    "results-project-carbon", "results-transmission-capacity",
    "results-transmission-flows", "results-imports-exports",
    "results-system-load-balance", "results-system-rps",
    "results-system-carbon-cap", "results-system-prm",
    "results-dispatch-plot", "results-capacity-new-plot",
    "results-capacity-retired-plot", "results-capacity-total-plot",
    "results-energy-plot", "results-cost-plot",
    "results-capacity-factor-plot" ]

/-- A concrete deterministic service used for closed test scenarios: each
operation returns a distinctive payload that records which operation ran
and with which scenario id. -/
def svcA : ScenarioResultsService where
  getResultsProjectCapacity scenarioID := { rows := ["projectCapacity", toString scenarioID] }
  getResultsProjectRetirements scenarioID := { rows := ["projectRetirements", toString scenarioID] }
  getResultsProjectNewBuild scenarioID := { rows := ["projectNewBuild", toString scenarioID] }
  getResultsProjectDispatch scenarioID := { rows := ["projectDispatch", toString scenarioID] }
  getResultsProjectCarbon scenarioID := { rows := ["projectCarbon", toString scenarioID] }
  getResultsTransmissionCapacity scenarioID := { rows := ["transmissionCapacity", toString scenarioID] }
  getResultsTransmissionFlows scenarioID := { rows := ["transmissionFlows", toString scenarioID] }
  getResultsImportsExports scenarioID := { rows := ["importsExports", toString scenarioID] }
  getResultsSystemLoadBalance scenarioID := { rows := ["systemLoadBalance", toString scenarioID] }
  getResultsSystemRPS scenarioID := { rows := ["systemRPS", toString scenarioID] }
  getResultsSystemCarbonCap scenarioID := { rows := ["systemCarbonCap", toString scenarioID] }
  getResultsSystemPRM scenarioID := { rows := ["systemPRM", toString scenarioID] }
  getResultsDispatchPlot scenarioID loadZone horizon yMax :=
    { plotJSON := "dispatchPlotJSON-" ++ toString scenarioID ++ "-" ++ loadZone.toTemplate
        ++ "-" ++ horizon.toTemplate ++ "-" ++ yMax.toTemplate }
  getResultsCapacityNewPlot scenarioID loadZone yMax :=
    { plotJSON := "capacityNewPlotJSON-" ++ toString scenarioID ++ "-" ++ loadZone.toTemplate
        ++ "-" ++ yMax.toTemplate }
  getResultsCapacityRetiredPlot scenarioID loadZone yMax :=
    { plotJSON := "capacityRetiredPlotJSON-" ++ toString scenarioID ++ "-" ++ loadZone.toTemplate
        ++ "-" ++ yMax.toTemplate }
  getResultsCapacityTotalPlot scenarioID loadZone yMax :=
    { plotJSON := "capacityTotalPlotJSON-" ++ toString scenarioID ++ "-" ++ loadZone.toTemplate
        ++ "-" ++ yMax.toTemplate }
  getResultsEnergyPlot scenarioID loadZone stage yMax :=
    { plotJSON := "energyPlotJSON-" ++ toString scenarioID ++ "-" ++ loadZone.toTemplate
        ++ "-" ++ stage.toTemplate ++ "-" ++ yMax.toTemplate }
  getResultsCostPlot scenarioID loadZone stage yMax :=
    { plotJSON := "costPlotJSON-" ++ toString scenarioID ++ "-" ++ loadZone.toTemplate
        ++ "-" ++ stage.toTemplate ++ "-" ++ yMax.toTemplate }
  getResultsCapacityFactorPlot scenarioID loadZone stage yMax :=
    { plotJSON := "capacityFactorPlotJSON-" ++ toString scenarioID ++ "-" ++ loadZone.toTemplate
        ++ "-" ++ stage.toTemplate ++ "-" ++ yMax.toTemplate }
  getOptions := fun _ =>
    { loadZoneOptions := ["ZoneA", "ZoneB"], horizonOptions := ["2030", "2040"],
      stageOptions := ["1", "2"] }


/-- The component state after the synchronous setup portion of ngOnInit
(everything before the dispatch chain): scenario id stored, buttons
rebuilt, forms reset and the getOptions fetch issued, table list reset,
selection key stored. -/
def setupState (svc : ScenarioResultsService) (routeID : Int) (subjectKey : String)
    (s : ScenarioResultsComponent) : ScenarioResultsComponent :=
  { s with scenarioID := routeID,
           allResultsButtons := resultsButtonCatalog,
           allResultsForms := [],
           allTables := [],
           resultsToShow := subjectKey,
           calls := s.calls ++ [ServiceCall.getOptions routeID],
           pending := s.pending ++ [Completion.options (svc.getOptions routeID)] }

/-- ngOnInit is the setup portion followed by the dispatch chain. -/
theorem ngOnInit_eq_setup (svc : ScenarioResultsService) (routeID : Int)
    (subjectKey : String) (s : ScenarioResultsComponent) :
    s.ngOnInit svc routeID subjectKey =
    ((setupState svc routeID subjectKey s).dispatchTableViews svc).dispatchPlotViews svc := rfl

/-- The fetch method getResultsProjectCapacity leaves the stored selection key unchanged. -/
theorem resultsToShow_getResultsProjectCapacity (svc : ScenarioResultsService) (i : Int)
    (s : ScenarioResultsComponent) :
    (s.getResultsProjectCapacity svc i).resultsToShow = s.resultsToShow := rfl

/-- The fetch method getResultsProjectRetirements leaves the stored selection key unchanged. -/
theorem resultsToShow_getResultsProjectRetirements (svc : ScenarioResultsService) (i : Int)
    (s : ScenarioResultsComponent) :
    (s.getResultsProjectRetirements svc i).resultsToShow = s.resultsToShow := rfl

/-- The fetch method getResultsProjectNewBuild leaves the stored selection key unchanged. -/
theorem resultsToShow_getResultsProjectNewBuild (svc : ScenarioResultsService) (i : Int)
    (s : ScenarioResultsComponent) :
    (s.getResultsProjectNewBuild svc i).resultsToShow = s.resultsToShow := rfl

/-- The fetch method getResultsProjectDispatch leaves the stored selection key unchanged. -/
theorem resultsToShow_getResultsProjectDispatch (svc : ScenarioResultsService) (i : Int)
    (s : ScenarioResultsComponent) :
    (s.getResultsProjectDispatch svc i).resultsToShow = s.resultsToShow := rfl

/-- The fetch method getResultsProjectCarbon leaves the stored selection key unchanged. -/
theorem resultsToShow_getResultsProjectCarbon (svc : ScenarioResultsService) (i : Int)
    (s : ScenarioResultsComponent) :
    (s.getResultsProjectCarbon svc i).resultsToShow = s.resultsToShow := rfl

/-- The fetch method getResultsTransmissionCapacity leaves the stored selection key unchanged. -/
theorem resultsToShow_getResultsTransmissionCapacity (svc : ScenarioResultsService) (i : Int)
    (s : ScenarioResultsComponent) :
    (s.getResultsTransmissionCapacity svc i).resultsToShow = s.resultsToShow := rfl

/-- The fetch method getResultsTransmissionFlows leaves the stored selection key unchanged. -/
theorem resultsToShow_getResultsTransmissionFlows (svc : ScenarioResultsService) (i : Int)
    (s : ScenarioResultsComponent) :
    (s.getResultsTransmissionFlows svc i).resultsToShow = s.resultsToShow := rfl

/-- The fetch method getResultsImportsExports leaves the stored selection key unchanged. -/
theorem resultsToShow_getResultsImportsExports (svc : ScenarioResultsService) (i : Int)
    (s : ScenarioResultsComponent) :
    (s.getResultsImportsExports svc i).resultsToShow = s.resultsToShow := rfl

/-- The fetch method getResultsSystemLoadBalance leaves the stored selection key unchanged. -/
theorem resultsToShow_getResultsSystemLoadBalance (svc : ScenarioResultsService) (i : Int)
    (s : ScenarioResultsComponent) :
    (s.getResultsSystemLoadBalance svc i).resultsToShow = s.resultsToShow := rfl

/-- The fetch method getResultsSystemRPS leaves the stored selection key unchanged. -/
theorem resultsToShow_getResultsSystemRPS (svc : ScenarioResultsService) (i : Int)
    (s : ScenarioResultsComponent) :
    (s.getResultsSystemRPS svc i).resultsToShow = s.resultsToShow := rfl

/-- The fetch method getResultsSystemCarbonCap leaves the stored selection key unchanged. -/
theorem resultsToShow_getResultsSystemCarbonCap (svc : ScenarioResultsService) (i : Int)
    (s : ScenarioResultsComponent) :
    (s.getResultsSystemCarbonCap svc i).resultsToShow = s.resultsToShow := rfl

/-- The fetch method getResultsSystemPRM leaves the stored selection key unchanged. -/
theorem resultsToShow_getResultsSystemPRM (svc : ScenarioResultsService) (i : Int)
    (s : ScenarioResultsComponent) :
    (s.getResultsSystemPRM svc i).resultsToShow = s.resultsToShow := rfl

/-- The fetch method getResultsDispatchPlot leaves the stored selection key unchanged. -/
theorem resultsToShow_getResultsDispatchPlot (svc : ScenarioResultsService) (i : Int)
    (s : ScenarioResultsComponent) :
    (s.getResultsDispatchPlot svc i).resultsToShow = s.resultsToShow := rfl

/-- The fetch method getResultsCapacityNewPlot leaves the stored selection key unchanged. -/
theorem resultsToShow_getResultsCapacityNewPlot (svc : ScenarioResultsService) (i : Int)
    (s : ScenarioResultsComponent) :
    (s.getResultsCapacityNewPlot svc i).resultsToShow = s.resultsToShow := rfl

/-- The fetch method getResultsCapacityRetiredPlot leaves the stored selection key unchanged. -/
theorem resultsToShow_getResultsCapacityRetiredPlot (svc : ScenarioResultsService) (i : Int)
    (s : ScenarioResultsComponent) :
    (s.getResultsCapacityRetiredPlot svc i).resultsToShow = s.resultsToShow := rfl

/-- The fetch method getResultsCapacityTotalPlot leaves the stored selection key unchanged. -/
theorem resultsToShow_getResultsCapacityTotalPlot (svc : ScenarioResultsService) (i : Int)
    (s : ScenarioResultsComponent) :
    (s.getResultsCapacityTotalPlot svc i).resultsToShow = s.resultsToShow := rfl

/-- The fetch method getResultsEnergyPlot leaves the stored selection key unchanged. -/
theorem resultsToShow_getResultsEnergyPlot (svc : ScenarioResultsService) (i : Int)
    (s : ScenarioResultsComponent) :
    (s.getResultsEnergyPlot svc i).resultsToShow = s.resultsToShow := rfl

/-- The fetch method getResultsCostPlot leaves the stored selection key unchanged. -/
theorem resultsToShow_getResultsCostPlot (svc : ScenarioResultsService) (i : Int)
    (s : ScenarioResultsComponent) :
    (s.getResultsCostPlot svc i).resultsToShow = s.resultsToShow := rfl

/-- The fetch method getResultsCapacityFactorPlot leaves the stored selection key unchanged. -/
theorem resultsToShow_getResultsCapacityFactorPlot (svc : ScenarioResultsService) (i : Int)
    (s : ScenarioResultsComponent) :
    (s.getResultsCapacityFactorPlot svc i).resultsToShow = s.resultsToShow := rfl

/-- When the stored key is results-project-capacity, the dispatch chain runs exactly the
getResultsProjectCapacity branch. -/
theorem dispatch_projectCapacity (svc : ScenarioResultsService) (s : ScenarioResultsComponent)
    (h : s.resultsToShow = "results-project-capacity") :
    (s.dispatchTableViews svc).dispatchPlotViews svc =
    s.getResultsProjectCapacity svc s.scenarioID := by
  simp [ScenarioResultsComponent.dispatchTableViews,
        ScenarioResultsComponent.dispatchPlotViews,
        ScenarioResultsComponent.ifSelected, h,
        resultsToShow_getResultsProjectCapacity]

/-- Activation with the key results-project-capacity: the setup runs and then exactly the
getResultsProjectCapacity fetch. -/
theorem ngOnInit_eq_projectCapacity (svc : ScenarioResultsService) (routeID : Int)
    (s : ScenarioResultsComponent) :
    s.ngOnInit svc routeID "results-project-capacity" =
    (setupState svc routeID "results-project-capacity" s).getResultsProjectCapacity svc routeID := by
  rw [ngOnInit_eq_setup]
  exact dispatch_projectCapacity svc _ rfl

/-- When the stored key is results-project-retirements, the dispatch chain runs exactly the
getResultsProjectRetirements branch. -/
theorem dispatch_projectRetirements (svc : ScenarioResultsService) (s : ScenarioResultsComponent)
    (h : s.resultsToShow = "results-project-retirements") :
    (s.dispatchTableViews svc).dispatchPlotViews svc =
    s.getResultsProjectRetirements svc s.scenarioID := by
  simp [ScenarioResultsComponent.dispatchTableViews,
        ScenarioResultsComponent.dispatchPlotViews,
        ScenarioResultsComponent.ifSelected, h,
        resultsToShow_getResultsProjectRetirements]

/-- Activation with the key results-project-retirements: the setup runs and then exactly the
getResultsProjectRetirements fetch. -/
theorem ngOnInit_eq_projectRetirements (svc : ScenarioResultsService) (routeID : Int)
    (s : ScenarioResultsComponent) :
    s.ngOnInit svc routeID "results-project-retirements" =
    (setupState svc routeID "results-project-retirements" s).getResultsProjectRetirements svc routeID := by
  rw [ngOnInit_eq_setup]
  exact dispatch_projectRetirements svc _ rfl

/-- When the stored key is results-project-new-build, the dispatch chain runs exactly the
getResultsProjectNewBuild branch. -/
theorem dispatch_projectNewBuild (svc : ScenarioResultsService) (s : ScenarioResultsComponent)
    (h : s.resultsToShow = "results-project-new-build") :
    (s.dispatchTableViews svc).dispatchPlotViews svc =
    s.getResultsProjectNewBuild svc s.scenarioID := by
  simp [ScenarioResultsComponent.dispatchTableViews,
        ScenarioResultsComponent.dispatchPlotViews,
        ScenarioResultsComponent.ifSelected, h,
        resultsToShow_getResultsProjectNewBuild]

/-- Activation with the key results-project-new-build: the setup runs and then exactly the
getResultsProjectNewBuild fetch. -/
theorem ngOnInit_eq_projectNewBuild (svc : ScenarioResultsService) (routeID : Int)
    (s : ScenarioResultsComponent) :
    s.ngOnInit svc routeID "results-project-new-build" =
    (setupState svc routeID "results-project-new-build" s).getResultsProjectNewBuild svc routeID := by
  rw [ngOnInit_eq_setup]
  exact dispatch_projectNewBuild svc _ rfl

/-- When the stored key is results-project-dispatch, the dispatch chain runs exactly the
getResultsProjectDispatch branch. -/
theorem dispatch_projectDispatch (svc : ScenarioResultsService) (s : ScenarioResultsComponent)
    (h : s.resultsToShow = "results-project-dispatch") :
    (s.dispatchTableViews svc).dispatchPlotViews svc =
    s.getResultsProjectDispatch svc s.scenarioID := by
  simp [ScenarioResultsComponent.dispatchTableViews,
        ScenarioResultsComponent.dispatchPlotViews,
        ScenarioResultsComponent.ifSelected, h,
        resultsToShow_getResultsProjectDispatch]

/-- Activation with the key results-project-dispatch: the setup runs and then exactly the
getResultsProjectDispatch fetch. -/
theorem ngOnInit_eq_projectDispatch (svc : ScenarioResultsService) (routeID : Int)
    (s : ScenarioResultsComponent) :
    s.ngOnInit svc routeID "results-project-dispatch" =
    (setupState svc routeID "results-project-dispatch" s).getResultsProjectDispatch svc routeID := by
  rw [ngOnInit_eq_setup]
  exact dispatch_projectDispatch svc _ rfl

/-- When the stored key is results-project-carbon, the dispatch chain runs exactly the
getResultsProjectCarbon branch. -/
theorem dispatch_projectCarbon (svc : ScenarioResultsService) (s : ScenarioResultsComponent)
    (h : s.resultsToShow = "results-project-carbon") :
    (s.dispatchTableViews svc).dispatchPlotViews svc =
    s.getResultsProjectCarbon svc s.scenarioID := by
  simp [ScenarioResultsComponent.dispatchTableViews,
        ScenarioResultsComponent.dispatchPlotViews,
        ScenarioResultsComponent.ifSelected, h,
        resultsToShow_getResultsProjectCarbon]

/-- Activation with the key results-project-carbon: the setup runs and then exactly the
getResultsProjectCarbon fetch. -/
theorem ngOnInit_eq_projectCarbon (svc : ScenarioResultsService) (routeID : Int)
    (s : ScenarioResultsComponent) :
    s.ngOnInit svc routeID "results-project-carbon" =
    (setupState svc routeID "results-project-carbon" s).getResultsProjectCarbon svc routeID := by
  rw [ngOnInit_eq_setup]
  exact dispatch_projectCarbon svc _ rfl

/-- When the stored key is results-transmission-capacity, the dispatch chain runs exactly the
getResultsTransmissionCapacity branch. -/
theorem dispatch_transmissionCapacity (svc : ScenarioResultsService) (s : ScenarioResultsComponent)
    (h : s.resultsToShow = "results-transmission-capacity") :
    (s.dispatchTableViews svc).dispatchPlotViews svc =
    s.getResultsTransmissionCapacity svc s.scenarioID := by
  simp [ScenarioResultsComponent.dispatchTableViews,
        ScenarioResultsComponent.dispatchPlotViews,
        ScenarioResultsComponent.ifSelected, h,
        resultsToShow_getResultsTransmissionCapacity]

/-- Activation with the key results-transmission-capacity: the setup runs and then exactly the
getResultsTransmissionCapacity fetch. -/
theorem ngOnInit_eq_transmissionCapacity (svc : ScenarioResultsService) (routeID : Int)
    (s : ScenarioResultsComponent) :
    s.ngOnInit svc routeID "results-transmission-capacity" =
    (setupState svc routeID "results-transmission-capacity" s).getResultsTransmissionCapacity svc routeID := by
  rw [ngOnInit_eq_setup]
  exact dispatch_transmissionCapacity svc _ rfl

/-- When the stored key is results-transmission-flows, the dispatch chain runs exactly the
getResultsTransmissionFlows branch. -/
theorem dispatch_transmissionFlows (svc : ScenarioResultsService) (s : ScenarioResultsComponent)
    (h : s.resultsToShow = "results-transmission-flows") :
    (s.dispatchTableViews svc).dispatchPlotViews svc =
    s.getResultsTransmissionFlows svc s.scenarioID := by
  simp [ScenarioResultsComponent.dispatchTableViews,
        ScenarioResultsComponent.dispatchPlotViews,
        ScenarioResultsComponent.ifSelected, h,
        resultsToShow_getResultsTransmissionFlows]

/-- Activation with the key results-transmission-flows: the setup runs and then exactly the
getResultsTransmissionFlows fetch. -/
theorem ngOnInit_eq_transmissionFlows (svc : ScenarioResultsService) (routeID : Int)
    (s : ScenarioResultsComponent) :
    s.ngOnInit svc routeID "results-transmission-flows" =
    (setupState svc routeID "results-transmission-flows" s).getResultsTransmissionFlows svc routeID := by
  rw [ngOnInit_eq_setup]
  exact dispatch_transmissionFlows svc _ rfl

/-- When the stored key is results-imports-exports, the dispatch chain runs exactly the
getResultsImportsExports branch. -/
theorem dispatch_importsExports (svc : ScenarioResultsService) (s : ScenarioResultsComponent)
    (h : s.resultsToShow = "results-imports-exports") :
    (s.dispatchTableViews svc).dispatchPlotViews svc =
    s.getResultsImportsExports svc s.scenarioID := by
  simp [ScenarioResultsComponent.dispatchTableViews,
        ScenarioResultsComponent.dispatchPlotViews,
        ScenarioResultsComponent.ifSelected, h,
        resultsToShow_getResultsImportsExports]

/-- Activation with the key results-imports-exports: the setup runs and then exactly the
getResultsImportsExports fetch. -/
theorem ngOnInit_eq_importsExports (svc : ScenarioResultsService) (routeID : Int)
    (s : ScenarioResultsComponent) :
    s.ngOnInit svc routeID "results-imports-exports" =
    (setupState svc routeID "results-imports-exports" s).getResultsImportsExports svc routeID := by
  rw [ngOnInit_eq_setup]
  exact dispatch_importsExports svc _ rfl

/-- When the stored key is results-system-load-balance, the dispatch chain runs exactly the
getResultsSystemLoadBalance branch. -/
theorem dispatch_systemLoadBalance (svc : ScenarioResultsService) (s : ScenarioResultsComponent)
    (h : s.resultsToShow = "results-system-load-balance") :
    (s.dispatchTableViews svc).dispatchPlotViews svc =
    s.getResultsSystemLoadBalance svc s.scenarioID := by
  simp [ScenarioResultsComponent.dispatchTableViews,
        ScenarioResultsComponent.dispatchPlotViews,
        ScenarioResultsComponent.ifSelected, h,
        resultsToShow_getResultsSystemLoadBalance]

/-- Activation with the key results-system-load-balance: the setup runs and then exactly the
getResultsSystemLoadBalance fetch. -/
theorem ngOnInit_eq_systemLoadBalance (svc : ScenarioResultsService) (routeID : Int)
    (s : ScenarioResultsComponent) :
    s.ngOnInit svc routeID "results-system-load-balance" =
    (setupState svc routeID "results-system-load-balance" s).getResultsSystemLoadBalance svc routeID := by
  rw [ngOnInit_eq_setup]
  exact dispatch_systemLoadBalance svc _ rfl

/-- When the stored key is results-system-rps, the dispatch chain runs exactly the
getResultsSystemRPS branch. -/
theorem dispatch_systemRPS (svc : ScenarioResultsService) (s : ScenarioResultsComponent)
    (h : s.resultsToShow = "results-system-rps") :
    (s.dispatchTableViews svc).dispatchPlotViews svc =
    s.getResultsSystemRPS svc s.scenarioID := by
  simp [ScenarioResultsComponent.dispatchTableViews,
        ScenarioResultsComponent.dispatchPlotViews,
        ScenarioResultsComponent.ifSelected, h,
        resultsToShow_getResultsSystemRPS]

/-- Activation with the key results-system-rps: the setup runs and then exactly the
getResultsSystemRPS fetch. -/
theorem ngOnInit_eq_systemRPS (svc : ScenarioResultsService) (routeID : Int)
    (s : ScenarioResultsComponent) :
    s.ngOnInit svc routeID "results-system-rps" =
    (setupState svc routeID "results-system-rps" s).getResultsSystemRPS svc routeID := by
  rw [ngOnInit_eq_setup]
  exact dispatch_systemRPS svc _ rfl

/-- When the stored key is results-system-carbon-cap, the dispatch chain runs exactly the
getResultsSystemCarbonCap branch. -/
theorem dispatch_systemCarbonCap (svc : ScenarioResultsService) (s : ScenarioResultsComponent)
    (h : s.resultsToShow = "results-system-carbon-cap") :
    (s.dispatchTableViews svc).dispatchPlotViews svc =
    s.getResultsSystemCarbonCap svc s.scenarioID := by
  simp [ScenarioResultsComponent.dispatchTableViews,
        ScenarioResultsComponent.dispatchPlotViews,
        ScenarioResultsComponent.ifSelected, h,
        resultsToShow_getResultsSystemCarbonCap]

/-- Activation with the key results-system-carbon-cap: the setup runs and then exactly the
getResultsSystemCarbonCap fetch. -/
theorem ngOnInit_eq_systemCarbonCap (svc : ScenarioResultsService) (routeID : Int)
    (s : ScenarioResultsComponent) :
    s.ngOnInit svc routeID "results-system-carbon-cap" =
    (setupState svc routeID "results-system-carbon-cap" s).getResultsSystemCarbonCap svc routeID := by
  rw [ngOnInit_eq_setup]
  exact dispatch_systemCarbonCap svc _ rfl

/-- When the stored key is results-system-prm, the dispatch chain runs exactly the
getResultsSystemPRM branch. -/
theorem dispatch_systemPRM (svc : ScenarioResultsService) (s : ScenarioResultsComponent)
    (h : s.resultsToShow = "results-system-prm") :
    (s.dispatchTableViews svc).dispatchPlotViews svc =
    s.getResultsSystemPRM svc s.scenarioID := by
  simp [ScenarioResultsComponent.dispatchTableViews,
        ScenarioResultsComponent.dispatchPlotViews,
        ScenarioResultsComponent.ifSelected, h,
        resultsToShow_getResultsSystemPRM]

/-- Activation with the key results-system-prm: the setup runs and then exactly the
getResultsSystemPRM fetch. -/
theorem ngOnInit_eq_systemPRM (svc : ScenarioResultsService) (routeID : Int)
    (s : ScenarioResultsComponent) :
    s.ngOnInit svc routeID "results-system-prm" =
    (setupState svc routeID "results-system-prm" s).getResultsSystemPRM svc routeID := by
  rw [ngOnInit_eq_setup]
  exact dispatch_systemPRM svc _ rfl

/-- When the stored key is results-dispatch-plot, the dispatch chain runs exactly the
getResultsDispatchPlot branch. -/
theorem dispatch_dispatchPlot (svc : ScenarioResultsService) (s : ScenarioResultsComponent)
    (h : s.resultsToShow = "results-dispatch-plot") :
    (s.dispatchTableViews svc).dispatchPlotViews svc =
    s.getResultsDispatchPlot svc s.scenarioID := by
  simp [ScenarioResultsComponent.dispatchTableViews,
        ScenarioResultsComponent.dispatchPlotViews,
        ScenarioResultsComponent.ifSelected, h,
        resultsToShow_getResultsDispatchPlot]

/-- Activation with the key results-dispatch-plot: the setup runs and then exactly the
getResultsDispatchPlot fetch. -/
theorem ngOnInit_eq_dispatchPlot (svc : ScenarioResultsService) (routeID : Int)
    (s : ScenarioResultsComponent) :
    s.ngOnInit svc routeID "results-dispatch-plot" =
    (setupState svc routeID "results-dispatch-plot" s).getResultsDispatchPlot svc routeID := by
  rw [ngOnInit_eq_setup]
  exact dispatch_dispatchPlot svc _ rfl

/-- When the stored key is results-capacity-new-plot, the dispatch chain runs exactly the
getResultsCapacityNewPlot branch. -/
theorem dispatch_capacityNewPlot (svc : ScenarioResultsService) (s : ScenarioResultsComponent)
    (h : s.resultsToShow = "results-capacity-new-plot") :
    (s.dispatchTableViews svc).dispatchPlotViews svc =
    s.getResultsCapacityNewPlot svc s.scenarioID := by
  simp [ScenarioResultsComponent.dispatchTableViews,
        ScenarioResultsComponent.dispatchPlotViews,
        ScenarioResultsComponent.ifSelected, h,
        resultsToShow_getResultsCapacityNewPlot]

/-- Activation with the key results-capacity-new-plot: the setup runs and then exactly the
getResultsCapacityNewPlot fetch. -/
theorem ngOnInit_eq_capacityNewPlot (svc : ScenarioResultsService) (routeID : Int)
    (s : ScenarioResultsComponent) :
    s.ngOnInit svc routeID "results-capacity-new-plot" =
    (setupState svc routeID "results-capacity-new-plot" s).getResultsCapacityNewPlot svc routeID := by
  rw [ngOnInit_eq_setup]
  exact dispatch_capacityNewPlot svc _ rfl

/-- When the stored key is results-capacity-retired-plot, the dispatch chain runs exactly the
getResultsCapacityRetiredPlot branch. -/
theorem dispatch_capacityRetiredPlot (svc : ScenarioResultsService) (s : ScenarioResultsComponent)
    (h : s.resultsToShow = "results-capacity-retired-plot") :
    (s.dispatchTableViews svc).dispatchPlotViews svc =
    s.getResultsCapacityRetiredPlot svc s.scenarioID := by
  simp [ScenarioResultsComponent.dispatchTableViews,
        ScenarioResultsComponent.dispatchPlotViews,
        ScenarioResultsComponent.ifSelected, h,
        resultsToShow_getResultsCapacityRetiredPlot]

/-- Activation with the key results-capacity-retired-plot: the setup runs and then exactly the
getResultsCapacityRetiredPlot fetch. -/
theorem ngOnInit_eq_capacityRetiredPlot (svc : ScenarioResultsService) (routeID : Int)
    (s : ScenarioResultsComponent) :
    s.ngOnInit svc routeID "results-capacity-retired-plot" =
    (setupState svc routeID "results-capacity-retired-plot" s).getResultsCapacityRetiredPlot svc routeID := by
  rw [ngOnInit_eq_setup]
  exact dispatch_capacityRetiredPlot svc _ rfl

/-- When the stored key is results-capacity-total-plot, the dispatch chain runs exactly the
getResultsCapacityTotalPlot branch. -/
theorem dispatch_capacityTotalPlot (svc : ScenarioResultsService) (s : ScenarioResultsComponent)
    (h : s.resultsToShow = "results-capacity-total-plot") :
    (s.dispatchTableViews svc).dispatchPlotViews svc =
    s.getResultsCapacityTotalPlot svc s.scenarioID := by
  simp [ScenarioResultsComponent.dispatchTableViews,
        ScenarioResultsComponent.dispatchPlotViews,
        ScenarioResultsComponent.ifSelected, h,
        resultsToShow_getResultsCapacityTotalPlot]

/-- Activation with the key results-capacity-total-plot: the setup runs and then exactly the
getResultsCapacityTotalPlot fetch. -/
theorem ngOnInit_eq_capacityTotalPlot (svc : ScenarioResultsService) (routeID : Int)
    (s : ScenarioResultsComponent) :
    s.ngOnInit svc routeID "results-capacity-total-plot" =
    (setupState svc routeID "results-capacity-total-plot" s).getResultsCapacityTotalPlot svc routeID := by
  rw [ngOnInit_eq_setup]
  exact dispatch_capacityTotalPlot svc _ rfl

/-- When the stored key is results-energy-plot, the dispatch chain runs exactly the
getResultsEnergyPlot branch. -/
theorem dispatch_energyPlot (svc : ScenarioResultsService) (s : ScenarioResultsComponent)
    (h : s.resultsToShow = "results-energy-plot") :
    (s.dispatchTableViews svc).dispatchPlotViews svc =
    s.getResultsEnergyPlot svc s.scenarioID := by
  simp [ScenarioResultsComponent.dispatchTableViews,
        ScenarioResultsComponent.dispatchPlotViews,
        ScenarioResultsComponent.ifSelected, h,
        resultsToShow_getResultsEnergyPlot]

/-- Activation with the key results-energy-plot: the setup runs and then exactly the
getResultsEnergyPlot fetch. -/
theorem ngOnInit_eq_energyPlot (svc : ScenarioResultsService) (routeID : Int)
    (s : ScenarioResultsComponent) :
    s.ngOnInit svc routeID "results-energy-plot" =
    (setupState svc routeID "results-energy-plot" s).getResultsEnergyPlot svc routeID := by
  rw [ngOnInit_eq_setup]
  exact dispatch_energyPlot svc _ rfl

/-- When the stored key is results-cost-plot, the dispatch chain runs exactly the
getResultsCostPlot branch. -/
theorem dispatch_costPlot (svc : ScenarioResultsService) (s : ScenarioResultsComponent)
    (h : s.resultsToShow = "results-cost-plot") :
    (s.dispatchTableViews svc).dispatchPlotViews svc =
    s.getResultsCostPlot svc s.scenarioID := by
  simp [ScenarioResultsComponent.dispatchTableViews,
        ScenarioResultsComponent.dispatchPlotViews,
        ScenarioResultsComponent.ifSelected, h,
        resultsToShow_getResultsCostPlot]

/-- Activation with the key results-cost-plot: the setup runs and then exactly the
getResultsCostPlot fetch. -/
theorem ngOnInit_eq_costPlot (svc : ScenarioResultsService) (routeID : Int)
    (s : ScenarioResultsComponent) :
    s.ngOnInit svc routeID "results-cost-plot" =
    (setupState svc routeID "results-cost-plot" s).getResultsCostPlot svc routeID := by
  rw [ngOnInit_eq_setup]
  exact dispatch_costPlot svc _ rfl

/-- When the stored key is results-capacity-factor-plot, the dispatch chain runs exactly the
getResultsCapacityFactorPlot branch. -/
theorem dispatch_capacityFactorPlot (svc : ScenarioResultsService) (s : ScenarioResultsComponent)
    (h : s.resultsToShow = "results-capacity-factor-plot") :
    (s.dispatchTableViews svc).dispatchPlotViews svc =
    s.getResultsCapacityFactorPlot svc s.scenarioID := by
  simp [ScenarioResultsComponent.dispatchTableViews,
        ScenarioResultsComponent.dispatchPlotViews,
        ScenarioResultsComponent.ifSelected, h,
        resultsToShow_getResultsCapacityFactorPlot]

/-- Activation with the key results-capacity-factor-plot: the setup runs and then exactly the
getResultsCapacityFactorPlot fetch. -/
theorem ngOnInit_eq_capacityFactorPlot (svc : ScenarioResultsService) (routeID : Int)
    (s : ScenarioResultsComponent) :
    s.ngOnInit svc routeID "results-capacity-factor-plot" =
    (setupState svc routeID "results-capacity-factor-plot" s).getResultsCapacityFactorPlot svc routeID := by
  rw [ngOnInit_eq_setup]
  exact dispatch_capacityFactorPlot svc _ rfl

/-- Activation with a key outside the catalog: every if statement of the
dispatch chain falls through, so the activation is exactly the setup
portion — no fetch, no error, a normal state. -/
theorem ngOnInit_eq_unknown (svc : ScenarioResultsService) (routeID : Int)
    (key : String) (s : ScenarioResultsComponent) (h : key ∉ catalogKeys) :
    s.ngOnInit svc routeID key = setupState svc routeID key s := by
  rw [ngOnInit_eq_setup]
  simp only [catalogKeys, List.mem_cons, List.not_mem_nil, or_false, not_or] at h
  obtain ⟨h1, h2, h3, h4, h5, h6, h7, h8, h9, h10, h11, h12, h13, h14, h15,
    h16, h17, h18, h19⟩ := h
  simp [ScenarioResultsComponent.dispatchTableViews,
        ScenarioResultsComponent.dispatchPlotViews,
        ScenarioResultsComponent.ifSelected, setupState,
        h1, h2, h3, h4, h5, h6, h7, h8, h9, h10, h11, h12, h13, h14, h15,
        h16, h17, h18, h19]

/-- True exactly for the getOptions option-list fetch. -/
def ServiceCall.isOptionsFetch : ServiceCall → Bool
  | ServiceCall.getOptions _ => true
  | _ => false

/-- Number of getOptions invocations recorded in a call log. -/
def countOptionsCalls (l : List ServiceCall) : Nat :=
  (l.filter ServiceCall.isOptionsFetch).length

/-- Number of per-view result fetch invocations (table or plot fetches)
recorded in a call log. -/
def countResultFetches (l : List ServiceCall) : Nat :=
  (l.filter ServiceCall.isResultFetch).length

/-- The stored result slots belonging to one view key: for a table view the
stored rows (and no plot slots); for a plot view the stored visualization
description and render target name (and no table slot); for a key with no
view, nothing. -/
def viewResult (key : String) (s : ScenarioResultsComponent) :
    Option ScenarioResults × Option String × Option String :=
  if key = "results-project-capacity" then (s.resultsProjectCapacity, none, none)
  else if key = "results-project-retirements" then (s.resultsProjectRetirements, none, none)
  else if key = "results-project-new-build" then (s.resultsProjectNewBuild, none, none)
  else if key = "results-project-dispatch" then (s.resultsProjectDispatch, none, none)
  else if key = "results-project-carbon" then (s.resultsProjectCarbon, none, none)
  else if key = "results-transmission-capacity" then (s.resultsTransmissionCapacity, none, none)
  else if key = "results-transmission-flows" then (s.resultsTransmissionFlows, none, none)
  else if key = "results-imports-exports" then (s.resultsImportsExports, none, none)
  else if key = "results-system-load-balance" then (s.resultsSystemLoadBalance, none, none)
  else if key = "results-system-rps" then (s.resultsSystemRPS, none, none)
  else if key = "results-system-carbon-cap" then (s.resultsSystemCarbonCap, none, none)
  else if key = "results-system-prm" then (s.resultsSystemPRM, none, none)
  else if key = "results-dispatch-plot" then (none, s.dispatchPlotJSON, s.dispatchPlotHTMLName)
  else if key = "results-capacity-new-plot" then (none, s.capacityNewPlotJSON, s.capacityNewPlotHTMLName)
  else if key = "results-capacity-retired-plot" then (none, s.capacityRetiredPlotJSON, s.capacityRetiredPlotHTMLName)
  else if key = "results-capacity-total-plot" then (none, s.capacityTotalPlotJSON, s.capacityTotalPlotHTMLName)
  else if key = "results-energy-plot" then (none, s.energyPlotJSON, s.energyPlotHTMLName)
  else if key = "results-cost-plot" then (none, s.costPlotJSON, s.costPlotHTMLName)
  else if key = "results-capacity-factor-plot" then (none, s.capacityFactorPlotJSON, s.capacityFactorPlotHTMLName)
  else (none, none, none)

/-- Activation with the key results-project-capacity followed by the resolution of both
outstanding fetches, starting from a state with no other fetch in
flight. -/
theorem runAll_ngOnInit_projectCapacity (svc : ScenarioResultsService) (routeID : Int)
    (s : ScenarioResultsComponent) (hp : s.pending = []) :
    runAll (s.ngOnInit svc routeID "results-project-capacity") =
    { s with scenarioID := routeID,
             allResultsButtons := resultsButtonCatalog,
             allResultsForms := resultsFormsOf (svc.getOptions routeID),
             allTables := [svc.getResultsProjectCapacity routeID],
             resultsToShow := "results-project-capacity",
             resultsProjectCapacity := some (svc.getResultsProjectCapacity routeID),
             calls := s.calls ++ [ServiceCall.getOptions routeID,
               ServiceCall.getResultsProjectCapacity routeID],
             pending := [] } := by
  rw [ngOnInit_eq_projectCapacity]
  simp [runAll, setupState, ScenarioResultsComponent.getResultsProjectCapacity, runCompletion, hp]

/-- Activation with the key results-project-retirements followed by the resolution of both
outstanding fetches, starting from a state with no other fetch in
flight. -/
theorem runAll_ngOnInit_projectRetirements (svc : ScenarioResultsService) (routeID : Int)
    (s : ScenarioResultsComponent) (hp : s.pending = []) :
    runAll (s.ngOnInit svc routeID "results-project-retirements") =
    { s with scenarioID := routeID,
             allResultsButtons := resultsButtonCatalog,
             allResultsForms := resultsFormsOf (svc.getOptions routeID),
             allTables := [svc.getResultsProjectRetirements routeID],
             resultsToShow := "results-project-retirements",
             resultsProjectRetirements := some (svc.getResultsProjectRetirements routeID),
             calls := s.calls ++ [ServiceCall.getOptions routeID,
               ServiceCall.getResultsProjectRetirements routeID],
             pending := [] } := by
  rw [ngOnInit_eq_projectRetirements]
  simp [runAll, setupState, ScenarioResultsComponent.getResultsProjectRetirements, runCompletion, hp]

/-- Activation with the key results-project-new-build followed by the resolution of both
outstanding fetches, starting from a state with no other fetch in
flight. -/
theorem runAll_ngOnInit_projectNewBuild (svc : ScenarioResultsService) (routeID : Int)
    (s : ScenarioResultsComponent) (hp : s.pending = []) :
    runAll (s.ngOnInit svc routeID "results-project-new-build") =
    { s with scenarioID := routeID,
             allResultsButtons := resultsButtonCatalog,
             allResultsForms := resultsFormsOf (svc.getOptions routeID),
             allTables := [svc.getResultsProjectNewBuild routeID],
             resultsToShow := "results-project-new-build",
             resultsProjectNewBuild := some (svc.getResultsProjectNewBuild routeID),
             calls := s.calls ++ [ServiceCall.getOptions routeID,
               ServiceCall.getResultsProjectNewBuild routeID],
             pending := [] } := by
  rw [ngOnInit_eq_projectNewBuild]
  simp [runAll, setupState, ScenarioResultsComponent.getResultsProjectNewBuild, runCompletion, hp]

/-- Activation with the key results-project-dispatch followed by the resolution of both
outstanding fetches, starting from a state with no other fetch in
flight. -/
theorem runAll_ngOnInit_projectDispatch (svc : ScenarioResultsService) (routeID : Int)
    (s : ScenarioResultsComponent) (hp : s.pending = []) :
    runAll (s.ngOnInit svc routeID "results-project-dispatch") =
    { s with scenarioID := routeID,
             allResultsButtons := resultsButtonCatalog,
             allResultsForms := resultsFormsOf (svc.getOptions routeID),
             allTables := [svc.getResultsProjectDispatch routeID],
             resultsToShow := "results-project-dispatch",
             resultsProjectDispatch := some (svc.getResultsProjectDispatch routeID),
             calls := s.calls ++ [ServiceCall.getOptions routeID,
               ServiceCall.getResultsProjectDispatch routeID],
             pending := [] } := by
  rw [ngOnInit_eq_projectDispatch]
  simp [runAll, setupState, ScenarioResultsComponent.getResultsProjectDispatch, runCompletion, hp]

/-- Activation with the key results-project-carbon followed by the resolution of both
outstanding fetches, starting from a state with no other fetch in
flight. -/
theorem runAll_ngOnInit_projectCarbon (svc : ScenarioResultsService) (routeID : Int)
    (s : ScenarioResultsComponent) (hp : s.pending = []) :
    runAll (s.ngOnInit svc routeID "results-project-carbon") =
    { s with scenarioID := routeID,
             allResultsButtons := resultsButtonCatalog,
             allResultsForms := resultsFormsOf (svc.getOptions routeID),
             allTables := [svc.getResultsProjectCarbon routeID],
             resultsToShow := "results-project-carbon",
             resultsProjectCarbon := some (svc.getResultsProjectCarbon routeID),
             calls := s.calls ++ [ServiceCall.getOptions routeID,
               ServiceCall.getResultsProjectCarbon routeID],
             pending := [] } := by
  rw [ngOnInit_eq_projectCarbon]
  simp [runAll, setupState, ScenarioResultsComponent.getResultsProjectCarbon, runCompletion, hp]

/-- Activation with the key results-transmission-capacity followed by the resolution of both
outstanding fetches, starting from a state with no other fetch in
flight. -/
theorem runAll_ngOnInit_transmissionCapacity (svc : ScenarioResultsService) (routeID : Int)
    (s : ScenarioResultsComponent) (hp : s.pending = []) :
    runAll (s.ngOnInit svc routeID "results-transmission-capacity") =
    { s with scenarioID := routeID,
             allResultsButtons := resultsButtonCatalog,
             allResultsForms := resultsFormsOf (svc.getOptions routeID),
             allTables := [svc.getResultsTransmissionCapacity routeID],
             resultsToShow := "results-transmission-capacity",
             resultsTransmissionCapacity := some (svc.getResultsTransmissionCapacity routeID),
             calls := s.calls ++ [ServiceCall.getOptions routeID,
               ServiceCall.getResultsTransmissionCapacity routeID],
             pending := [] } := by
  rw [ngOnInit_eq_transmissionCapacity]
  simp [runAll, setupState, ScenarioResultsComponent.getResultsTransmissionCapacity, runCompletion, hp]

/-- Activation with the key results-transmission-flows followed by the resolution of both
outstanding fetches, starting from a state with no other fetch in
flight. -/
theorem runAll_ngOnInit_transmissionFlows (svc : ScenarioResultsService) (routeID : Int)
    (s : ScenarioResultsComponent) (hp : s.pending = []) :
    runAll (s.ngOnInit svc routeID "results-transmission-flows") =
    { s with scenarioID := routeID,
             allResultsButtons := resultsButtonCatalog,
             allResultsForms := resultsFormsOf (svc.getOptions routeID),
             allTables := [svc.getResultsTransmissionFlows routeID],
             resultsToShow := "results-transmission-flows",
             resultsTransmissionFlows := some (svc.getResultsTransmissionFlows routeID),
             calls := s.calls ++ [ServiceCall.getOptions routeID,
               ServiceCall.getResultsTransmissionFlows routeID],
             pending := [] } := by
  rw [ngOnInit_eq_transmissionFlows]
  simp [runAll, setupState, ScenarioResultsComponent.getResultsTransmissionFlows, runCompletion, hp]

/-- Activation with the key results-imports-exports followed by the resolution of both
outstanding fetches, starting from a state with no other fetch in
flight. -/
theorem runAll_ngOnInit_importsExports (svc : ScenarioResultsService) (routeID : Int)
    (s : ScenarioResultsComponent) (hp : s.pending = []) :
    runAll (s.ngOnInit svc routeID "results-imports-exports") =
    { s with scenarioID := routeID,
             allResultsButtons := resultsButtonCatalog,
             allResultsForms := resultsFormsOf (svc.getOptions routeID),
             allTables := [svc.getResultsImportsExports routeID],
             resultsToShow := "results-imports-exports",
             resultsImportsExports := some (svc.getResultsImportsExports routeID),
             calls := s.calls ++ [ServiceCall.getOptions routeID,
               ServiceCall.getResultsImportsExports routeID],
             pending := [] } := by
  rw [ngOnInit_eq_importsExports]
  simp [runAll, setupState, ScenarioResultsComponent.getResultsImportsExports, runCompletion, hp]

/-- Activation with the key results-system-load-balance followed by the resolution of both
outstanding fetches, starting from a state with no other fetch in
flight. -/
theorem runAll_ngOnInit_systemLoadBalance (svc : ScenarioResultsService) (routeID : Int)
    (s : ScenarioResultsComponent) (hp : s.pending = []) :
    runAll (s.ngOnInit svc routeID "results-system-load-balance") =
    { s with scenarioID := routeID,
             allResultsButtons := resultsButtonCatalog,
             allResultsForms := resultsFormsOf (svc.getOptions routeID),
             allTables := [svc.getResultsSystemLoadBalance routeID],
             resultsToShow := "results-system-load-balance",
             resultsSystemLoadBalance := some (svc.getResultsSystemLoadBalance routeID),
             calls := s.calls ++ [ServiceCall.getOptions routeID,
               ServiceCall.getResultsSystemLoadBalance routeID],
             pending := [] } := by
  rw [ngOnInit_eq_systemLoadBalance]
  simp [runAll, setupState, ScenarioResultsComponent.getResultsSystemLoadBalance, runCompletion, hp]

/-- Activation with the key results-system-rps followed by the resolution of both
outstanding fetches, starting from a state with no other fetch in
flight. -/
theorem runAll_ngOnInit_systemRPS (svc : ScenarioResultsService) (routeID : Int)
    (s : ScenarioResultsComponent) (hp : s.pending = []) :
    runAll (s.ngOnInit svc routeID "results-system-rps") =
    { s with scenarioID := routeID,
             allResultsButtons := resultsButtonCatalog,
             allResultsForms := resultsFormsOf (svc.getOptions routeID),
             allTables := [svc.getResultsSystemRPS routeID],
             resultsToShow := "results-system-rps",
             resultsSystemRPS := some (svc.getResultsSystemRPS routeID),
             calls := s.calls ++ [ServiceCall.getOptions routeID,
               ServiceCall.getResultsSystemRPS routeID],
             pending := [] } := by
  rw [ngOnInit_eq_systemRPS]
  simp [runAll, setupState, ScenarioResultsComponent.getResultsSystemRPS, runCompletion, hp]

/-- Activation with the key results-system-carbon-cap followed by the resolution of both
outstanding fetches, starting from a state with no other fetch in
flight. -/
theorem runAll_ngOnInit_systemCarbonCap (svc : ScenarioResultsService) (routeID : Int)
    (s : ScenarioResultsComponent) (hp : s.pending = []) :
    runAll (s.ngOnInit svc routeID "results-system-carbon-cap") =
    { s with scenarioID := routeID,
             allResultsButtons := resultsButtonCatalog,
             allResultsForms := resultsFormsOf (svc.getOptions routeID),
             allTables := [svc.getResultsSystemCarbonCap routeID],
             resultsToShow := "results-system-carbon-cap",
             resultsSystemCarbonCap := some (svc.getResultsSystemCarbonCap routeID),
             calls := s.calls ++ [ServiceCall.getOptions routeID,
               ServiceCall.getResultsSystemCarbonCap routeID],
             pending := [] } := by
  rw [ngOnInit_eq_systemCarbonCap]
  simp [runAll, setupState, ScenarioResultsComponent.getResultsSystemCarbonCap, runCompletion, hp]

/-- Activation with the key results-system-prm followed by the resolution of both
outstanding fetches, starting from a state with no other fetch in
flight. -/
theorem runAll_ngOnInit_systemPRM (svc : ScenarioResultsService) (routeID : Int)
    (s : ScenarioResultsComponent) (hp : s.pending = []) :
    runAll (s.ngOnInit svc routeID "results-system-prm") =
    { s with scenarioID := routeID,
             allResultsButtons := resultsButtonCatalog,
             allResultsForms := resultsFormsOf (svc.getOptions routeID),
             allTables := [svc.getResultsSystemPRM routeID],
             resultsToShow := "results-system-prm",
             resultsSystemPRM := some (svc.getResultsSystemPRM routeID),
             calls := s.calls ++ [ServiceCall.getOptions routeID,
               ServiceCall.getResultsSystemPRM routeID],
             pending := [] } := by
  rw [ngOnInit_eq_systemPRM]
  simp [runAll, setupState, ScenarioResultsComponent.getResultsSystemPRM, runCompletion, hp]

/-- Activation with the key results-dispatch-plot followed by the resolution of both
outstanding fetches, starting from a state with no other fetch in
flight. -/
theorem runAll_ngOnInit_dispatchPlot (svc : ScenarioResultsService) (routeID : Int)
    (s : ScenarioResultsComponent) (hp : s.pending = []) :
    runAll (s.ngOnInit svc routeID "results-dispatch-plot") =
    { s with scenarioID := routeID,
             allResultsButtons := resultsButtonCatalog,
             allResultsForms := resultsFormsOf (svc.getOptions routeID),
             allTables := [],
             resultsToShow := "results-dispatch-plot",
             dispatchPlotHTMLName := some (dispatchPlotNameOf s.dispatchPlotOptionsForm.dispatchPlotLoadZone s.dispatchPlotOptionsForm.dispatchPlotHorizon),
             dispatchPlotJSON := some (svc.getResultsDispatchPlot routeID s.dispatchPlotOptionsForm.dispatchPlotLoadZone s.dispatchPlotOptionsForm.dispatchPlotHorizon (substYMax s.dispatchPlotOptionsForm.dispatchPlotYMax)).plotJSON,
             calls := s.calls ++ [ServiceCall.getOptions routeID,
               ServiceCall.getResultsDispatchPlot routeID s.dispatchPlotOptionsForm.dispatchPlotLoadZone s.dispatchPlotOptionsForm.dispatchPlotHorizon (substYMax s.dispatchPlotOptionsForm.dispatchPlotYMax)],
             pending := [],
             embeds := s.embeds ++ [(svc.getResultsDispatchPlot routeID s.dispatchPlotOptionsForm.dispatchPlotLoadZone s.dispatchPlotOptionsForm.dispatchPlotHorizon (substYMax s.dispatchPlotOptionsForm.dispatchPlotYMax)).plotJSON] } := by
  rw [ngOnInit_eq_dispatchPlot]
  simp [runAll, setupState, ScenarioResultsComponent.getResultsDispatchPlot, runCompletion, hp]

/-- Activation with the key results-capacity-new-plot followed by the resolution of both
outstanding fetches, starting from a state with no other fetch in
flight. -/
theorem runAll_ngOnInit_capacityNewPlot (svc : ScenarioResultsService) (routeID : Int)
    (s : ScenarioResultsComponent) (hp : s.pending = []) :
    runAll (s.ngOnInit svc routeID "results-capacity-new-plot") =
    { s with scenarioID := routeID,
             allResultsButtons := resultsButtonCatalog,
             allResultsForms := resultsFormsOf (svc.getOptions routeID),
             allTables := [],
             resultsToShow := "results-capacity-new-plot",
             capacityNewPlotHTMLName := some (newCapacityPlotNameOf s.capacityNewPlotOptionsForm.capacityNewPlotLoadZone),
             capacityNewPlotJSON := some (svc.getResultsCapacityNewPlot routeID s.capacityNewPlotOptionsForm.capacityNewPlotLoadZone (substYMax s.capacityNewPlotOptionsForm.capacityNewPlotYMax)).plotJSON,
             calls := s.calls ++ [ServiceCall.getOptions routeID,
               ServiceCall.getResultsCapacityNewPlot routeID s.capacityNewPlotOptionsForm.capacityNewPlotLoadZone (substYMax s.capacityNewPlotOptionsForm.capacityNewPlotYMax)],
             pending := [],
             embeds := s.embeds ++ [(svc.getResultsCapacityNewPlot routeID s.capacityNewPlotOptionsForm.capacityNewPlotLoadZone (substYMax s.capacityNewPlotOptionsForm.capacityNewPlotYMax)).plotJSON] } := by
  rw [ngOnInit_eq_capacityNewPlot]
  simp [runAll, setupState, ScenarioResultsComponent.getResultsCapacityNewPlot, runCompletion, hp]

/-- Activation with the key results-capacity-retired-plot followed by the resolution of both
outstanding fetches, starting from a state with no other fetch in
flight. -/
theorem runAll_ngOnInit_capacityRetiredPlot (svc : ScenarioResultsService) (routeID : Int)
    (s : ScenarioResultsComponent) (hp : s.pending = []) :
    runAll (s.ngOnInit svc routeID "results-capacity-retired-plot") =
    { s with scenarioID := routeID,
             allResultsButtons := resultsButtonCatalog,
             allResultsForms := resultsFormsOf (svc.getOptions routeID),
             allTables := [],
             resultsToShow := "results-capacity-retired-plot",
             capacityRetiredPlotHTMLName := some (retiredCapacityPlotNameOf s.capacityRetiredPlotOptionsForm.capacityRetiredPlotLoadZone),
             capacityRetiredPlotJSON := some (svc.getResultsCapacityRetiredPlot routeID s.capacityRetiredPlotOptionsForm.capacityRetiredPlotLoadZone (substYMax s.capacityRetiredPlotOptionsForm.capacityRetiredPlotYMax)).plotJSON,
             calls := s.calls ++ [ServiceCall.getOptions routeID,
               ServiceCall.getResultsCapacityRetiredPlot routeID s.capacityRetiredPlotOptionsForm.capacityRetiredPlotLoadZone (substYMax s.capacityRetiredPlotOptionsForm.capacityRetiredPlotYMax)],
             pending := [],
             embeds := s.embeds ++ [(svc.getResultsCapacityRetiredPlot routeID s.capacityRetiredPlotOptionsForm.capacityRetiredPlotLoadZone (substYMax s.capacityRetiredPlotOptionsForm.capacityRetiredPlotYMax)).plotJSON] } := by
  rw [ngOnInit_eq_capacityRetiredPlot]
  simp [runAll, setupState, ScenarioResultsComponent.getResultsCapacityRetiredPlot, runCompletion, hp]

/-- Activation with the key results-capacity-total-plot followed by the resolution of both
outstanding fetches, starting from a state with no other fetch in
flight. -/
theorem runAll_ngOnInit_capacityTotalPlot (svc : ScenarioResultsService) (routeID : Int)
    (s : ScenarioResultsComponent) (hp : s.pending = []) :
    runAll (s.ngOnInit svc routeID "results-capacity-total-plot") =
    { s with scenarioID := routeID,
             allResultsButtons := resultsButtonCatalog,
             allResultsForms := resultsFormsOf (svc.getOptions routeID),
             allTables := [],
             resultsToShow := "results-capacity-total-plot",
             capacityTotalPlotHTMLName := some (allCapacityPlotNameOf s.capacityTotalPlotOptionsForm.capacityTotalPlotLoadZone),
             capacityTotalPlotJSON := some (svc.getResultsCapacityTotalPlot routeID s.capacityTotalPlotOptionsForm.capacityTotalPlotLoadZone (substYMax s.capacityTotalPlotOptionsForm.capacityTotalPlotYMax)).plotJSON,
             calls := s.calls ++ [ServiceCall.getOptions routeID,
               ServiceCall.getResultsCapacityTotalPlot routeID s.capacityTotalPlotOptionsForm.capacityTotalPlotLoadZone (substYMax s.capacityTotalPlotOptionsForm.capacityTotalPlotYMax)],
             pending := [],
             embeds := s.embeds ++ [(svc.getResultsCapacityTotalPlot routeID s.capacityTotalPlotOptionsForm.capacityTotalPlotLoadZone (substYMax s.capacityTotalPlotOptionsForm.capacityTotalPlotYMax)).plotJSON] } := by
  rw [ngOnInit_eq_capacityTotalPlot]
  simp [runAll, setupState, ScenarioResultsComponent.getResultsCapacityTotalPlot, runCompletion, hp]

/-- Activation with the key results-energy-plot followed by the resolution of both
outstanding fetches, starting from a state with no other fetch in
flight. -/
theorem runAll_ngOnInit_energyPlot (svc : ScenarioResultsService) (routeID : Int)
    (s : ScenarioResultsComponent) (hp : s.pending = []) :
    runAll (s.ngOnInit svc routeID "results-energy-plot") =
    { s with scenarioID := routeID,
             allResultsButtons := resultsButtonCatalog,
             allResultsForms := resultsFormsOf (svc.getOptions routeID),
             allTables := [],
             resultsToShow := "results-energy-plot",
             energyPlotHTMLName := some (energyPlotNameOf s.energyPlotOptionsForm.energyPlotLoadZone s.energyPlotOptionsForm.energyPlotStage),
             energyPlotJSON := some (svc.getResultsEnergyPlot routeID s.energyPlotOptionsForm.energyPlotLoadZone s.energyPlotOptionsForm.energyPlotStage (substYMax s.energyPlotOptionsForm.energyPlotYMax)).plotJSON,
             calls := s.calls ++ [ServiceCall.getOptions routeID,
               ServiceCall.getResultsEnergyPlot routeID s.energyPlotOptionsForm.energyPlotLoadZone s.energyPlotOptionsForm.energyPlotStage (substYMax s.energyPlotOptionsForm.energyPlotYMax)],
             pending := [],
             embeds := s.embeds ++ [(svc.getResultsEnergyPlot routeID s.energyPlotOptionsForm.energyPlotLoadZone s.energyPlotOptionsForm.energyPlotStage (substYMax s.energyPlotOptionsForm.energyPlotYMax)).plotJSON] } := by
  rw [ngOnInit_eq_energyPlot]
  simp [runAll, setupState, ScenarioResultsComponent.getResultsEnergyPlot, runCompletion, hp]

/-- Activation with the key results-cost-plot followed by the resolution of both
outstanding fetches, starting from a state with no other fetch in
flight. -/
theorem runAll_ngOnInit_costPlot (svc : ScenarioResultsService) (routeID : Int)
    (s : ScenarioResultsComponent) (hp : s.pending = []) :
    runAll (s.ngOnInit svc routeID "results-cost-plot") =
    { s with scenarioID := routeID,
             allResultsButtons := resultsButtonCatalog,
             allResultsForms := resultsFormsOf (svc.getOptions routeID),
             allTables := [],
             resultsToShow := "results-cost-plot",
             costPlotHTMLName := some (costPlotNameOf s.costPlotOptionsForm.costPlotLoadZone s.costPlotOptionsForm.costPlotStage),
             costPlotJSON := some (svc.getResultsCostPlot routeID s.costPlotOptionsForm.costPlotLoadZone s.costPlotOptionsForm.costPlotStage (substYMax s.costPlotOptionsForm.costPlotYMax)).plotJSON,
             calls := s.calls ++ [ServiceCall.getOptions routeID,
               ServiceCall.getResultsCostPlot routeID s.costPlotOptionsForm.costPlotLoadZone s.costPlotOptionsForm.costPlotStage (substYMax s.costPlotOptionsForm.costPlotYMax)],
             pending := [],
             embeds := s.embeds ++ [(svc.getResultsCostPlot routeID s.costPlotOptionsForm.costPlotLoadZone s.costPlotOptionsForm.costPlotStage (substYMax s.costPlotOptionsForm.costPlotYMax)).plotJSON] } := by
  rw [ngOnInit_eq_costPlot]
  simp [runAll, setupState, ScenarioResultsComponent.getResultsCostPlot, runCompletion, hp]

/-- Activation with the key results-capacity-factor-plot followed by the resolution of both
outstanding fetches, starting from a state with no other fetch in
flight. -/
theorem runAll_ngOnInit_capacityFactorPlot (svc : ScenarioResultsService) (routeID : Int)
    (s : ScenarioResultsComponent) (hp : s.pending = []) :
    runAll (s.ngOnInit svc routeID "results-capacity-factor-plot") =
    { s with scenarioID := routeID,
             allResultsButtons := resultsButtonCatalog,
             allResultsForms := resultsFormsOf (svc.getOptions routeID),
             allTables := [],
             resultsToShow := "results-capacity-factor-plot",
             capacityFactorPlotHTMLName := some (capFactorPlotNameOf s.capacityFactorPlotOptionsForm.capacityFactorPlotLoadZone s.capacityFactorPlotOptionsForm.capacityFactorPlotStage),
             capacityFactorPlotJSON := some (svc.getResultsCapacityFactorPlot routeID s.capacityFactorPlotOptionsForm.capacityFactorPlotLoadZone s.capacityFactorPlotOptionsForm.capacityFactorPlotStage (substYMax s.capacityFactorPlotOptionsForm.capacityFactorPlotYMax)).plotJSON,
             calls := s.calls ++ [ServiceCall.getOptions routeID,
               ServiceCall.getResultsCapacityFactorPlot routeID s.capacityFactorPlotOptionsForm.capacityFactorPlotLoadZone s.capacityFactorPlotOptionsForm.capacityFactorPlotStage (substYMax s.capacityFactorPlotOptionsForm.capacityFactorPlotYMax)],
             pending := [],
             embeds := s.embeds ++ [(svc.getResultsCapacityFactorPlot routeID s.capacityFactorPlotOptionsForm.capacityFactorPlotLoadZone s.capacityFactorPlotOptionsForm.capacityFactorPlotStage (substYMax s.capacityFactorPlotOptionsForm.capacityFactorPlotYMax)).plotJSON] } := by
  rw [ngOnInit_eq_capacityFactorPlot]
  simp [runAll, setupState, ScenarioResultsComponent.getResultsCapacityFactorPlot, runCompletion, hp]

/-- Claim C2: for every plot view activation, a y-axis-max form value that
is null is replaced by the literal string "default" before being passed to
the fetch operation, while a non-null y-axis-max value and all other
filter values (load zone, horizon, stage) are passed to the fetch
operation unchanged, including when they are null. -/
theorem claim2_yMaxDefaultSubstitution (svc : ScenarioResultsService) (routeID : Int)
    (s : ScenarioResultsComponent) :
    ((s.ngOnInit svc routeID "results-dispatch-plot").calls =
       s.calls ++ [ServiceCall.getOptions routeID,
         ServiceCall.getResultsDispatchPlot routeID s.dispatchPlotOptionsForm.dispatchPlotLoadZone s.dispatchPlotOptionsForm.dispatchPlotHorizon
           (if s.dispatchPlotOptionsForm.dispatchPlotYMax = FormVal.null
             then FormVal.str "default"
             else s.dispatchPlotOptionsForm.dispatchPlotYMax)])
  ∧
    ((s.ngOnInit svc routeID "results-capacity-new-plot").calls =
       s.calls ++ [ServiceCall.getOptions routeID,
         ServiceCall.getResultsCapacityNewPlot routeID s.capacityNewPlotOptionsForm.capacityNewPlotLoadZone
           (if s.capacityNewPlotOptionsForm.capacityNewPlotYMax = FormVal.null
             then FormVal.str "default"
             else s.capacityNewPlotOptionsForm.capacityNewPlotYMax)])
  ∧
    ((s.ngOnInit svc routeID "results-capacity-retired-plot").calls =
       s.calls ++ [ServiceCall.getOptions routeID,
         ServiceCall.getResultsCapacityRetiredPlot routeID s.capacityRetiredPlotOptionsForm.capacityRetiredPlotLoadZone
           (if s.capacityRetiredPlotOptionsForm.capacityRetiredPlotYMax = FormVal.null
             then FormVal.str "default"
             else s.capacityRetiredPlotOptionsForm.capacityRetiredPlotYMax)])
  ∧
    ((s.ngOnInit svc routeID "results-capacity-total-plot").calls =
       s.calls ++ [ServiceCall.getOptions routeID,
         ServiceCall.getResultsCapacityTotalPlot routeID s.capacityTotalPlotOptionsForm.capacityTotalPlotLoadZone
           (if s.capacityTotalPlotOptionsForm.capacityTotalPlotYMax = FormVal.null
             then FormVal.str "default"
             else s.capacityTotalPlotOptionsForm.capacityTotalPlotYMax)])
  ∧
    ((s.ngOnInit svc routeID "results-energy-plot").calls =
       s.calls ++ [ServiceCall.getOptions routeID,
         ServiceCall.getResultsEnergyPlot routeID s.energyPlotOptionsForm.energyPlotLoadZone s.energyPlotOptionsForm.energyPlotStage
           (if s.energyPlotOptionsForm.energyPlotYMax = FormVal.null
             then FormVal.str "default"
             else s.energyPlotOptionsForm.energyPlotYMax)])
  ∧
    ((s.ngOnInit svc routeID "results-cost-plot").calls =
       s.calls ++ [ServiceCall.getOptions routeID,
         ServiceCall.getResultsCostPlot routeID s.costPlotOptionsForm.costPlotLoadZone s.costPlotOptionsForm.costPlotStage
           (if s.costPlotOptionsForm.costPlotYMax = FormVal.null
             then FormVal.str "default"
             else s.costPlotOptionsForm.costPlotYMax)])
  ∧
    ((s.ngOnInit svc routeID "results-capacity-factor-plot").calls =
       s.calls ++ [ServiceCall.getOptions routeID,
         ServiceCall.getResultsCapacityFactorPlot routeID s.capacityFactorPlotOptionsForm.capacityFactorPlotLoadZone s.capacityFactorPlotOptionsForm.capacityFactorPlotStage
           (if s.capacityFactorPlotOptionsForm.capacityFactorPlotYMax = FormVal.null
             then FormVal.str "default"
             else s.capacityFactorPlotOptionsForm.capacityFactorPlotYMax)]) := by
  refine ⟨?h0, ?h1, ?h2, ?h3, ?h4, ?h5, ?h6⟩
  case h0 =>
    rw [ngOnInit_eq_dispatchPlot]
    simp [ScenarioResultsComponent.getResultsDispatchPlot, setupState, substYMax]
  case h1 =>
    rw [ngOnInit_eq_capacityNewPlot]
    simp [ScenarioResultsComponent.getResultsCapacityNewPlot, setupState, substYMax]
  case h2 =>
    rw [ngOnInit_eq_capacityRetiredPlot]
    simp [ScenarioResultsComponent.getResultsCapacityRetiredPlot, setupState, substYMax]
  case h3 =>
    rw [ngOnInit_eq_capacityTotalPlot]
    simp [ScenarioResultsComponent.getResultsCapacityTotalPlot, setupState, substYMax]
  case h4 =>
    rw [ngOnInit_eq_energyPlot]
    simp [ScenarioResultsComponent.getResultsEnergyPlot, setupState, substYMax]
  case h5 =>
    rw [ngOnInit_eq_costPlot]
    simp [ScenarioResultsComponent.getResultsCostPlot, setupState, substYMax]
  case h6 =>
    rw [ngOnInit_eq_capacityFactorPlot]
    simp [ScenarioResultsComponent.getResultsCapacityFactorPlot, setupState, substYMax]

/-- Claim C9: the y-axis-max default substitution applies only when the form
value is strictly null: a y-axis-max value of undefined, 0, or the empty
string is not rewritten to "default" but passed to the fetch operation
unchanged; this holds for every plot view activation. -/
theorem claim9_strictNullSubstitutionOnly :
    (∀ svc routeID (s : ScenarioResultsComponent),
       s.dispatchPlotOptionsForm.dispatchPlotYMax ≠ FormVal.null →
       (s.ngOnInit svc routeID "results-dispatch-plot").calls =
         s.calls ++ [ServiceCall.getOptions routeID,
           ServiceCall.getResultsDispatchPlot routeID s.dispatchPlotOptionsForm.dispatchPlotLoadZone s.dispatchPlotOptionsForm.dispatchPlotHorizon s.dispatchPlotOptionsForm.dispatchPlotYMax])
  ∧
    (∀ svc routeID (s : ScenarioResultsComponent),
       s.capacityNewPlotOptionsForm.capacityNewPlotYMax ≠ FormVal.null →
       (s.ngOnInit svc routeID "results-capacity-new-plot").calls =
         s.calls ++ [ServiceCall.getOptions routeID,
           ServiceCall.getResultsCapacityNewPlot routeID s.capacityNewPlotOptionsForm.capacityNewPlotLoadZone s.capacityNewPlotOptionsForm.capacityNewPlotYMax])
  ∧
    (∀ svc routeID (s : ScenarioResultsComponent),
       s.capacityRetiredPlotOptionsForm.capacityRetiredPlotYMax ≠ FormVal.null →
       (s.ngOnInit svc routeID "results-capacity-retired-plot").calls =
         s.calls ++ [ServiceCall.getOptions routeID,
           ServiceCall.getResultsCapacityRetiredPlot routeID s.capacityRetiredPlotOptionsForm.capacityRetiredPlotLoadZone s.capacityRetiredPlotOptionsForm.capacityRetiredPlotYMax])
  ∧
    (∀ svc routeID (s : ScenarioResultsComponent),
       s.capacityTotalPlotOptionsForm.capacityTotalPlotYMax ≠ FormVal.null →
       (s.ngOnInit svc routeID "results-capacity-total-plot").calls =
         s.calls ++ [ServiceCall.getOptions routeID,
           ServiceCall.getResultsCapacityTotalPlot routeID s.capacityTotalPlotOptionsForm.capacityTotalPlotLoadZone s.capacityTotalPlotOptionsForm.capacityTotalPlotYMax])
  ∧
    (∀ svc routeID (s : ScenarioResultsComponent),
       s.energyPlotOptionsForm.energyPlotYMax ≠ FormVal.null →
       (s.ngOnInit svc routeID "results-energy-plot").calls =
         s.calls ++ [ServiceCall.getOptions routeID,
           ServiceCall.getResultsEnergyPlot routeID s.energyPlotOptionsForm.energyPlotLoadZone s.energyPlotOptionsForm.energyPlotStage s.energyPlotOptionsForm.energyPlotYMax])
  ∧
    (∀ svc routeID (s : ScenarioResultsComponent),
       s.costPlotOptionsForm.costPlotYMax ≠ FormVal.null →
       (s.ngOnInit svc routeID "results-cost-plot").calls =
         s.calls ++ [ServiceCall.getOptions routeID,
           ServiceCall.getResultsCostPlot routeID s.costPlotOptionsForm.costPlotLoadZone s.costPlotOptionsForm.costPlotStage s.costPlotOptionsForm.costPlotYMax])
  ∧
    (∀ svc routeID (s : ScenarioResultsComponent),
       s.capacityFactorPlotOptionsForm.capacityFactorPlotYMax ≠ FormVal.null →
       (s.ngOnInit svc routeID "results-capacity-factor-plot").calls =
         s.calls ++ [ServiceCall.getOptions routeID,
           ServiceCall.getResultsCapacityFactorPlot routeID s.capacityFactorPlotOptionsForm.capacityFactorPlotLoadZone s.capacityFactorPlotOptionsForm.capacityFactorPlotStage s.capacityFactorPlotOptionsForm.capacityFactorPlotYMax])
  ∧ substYMax FormVal.undef = FormVal.undef
  ∧ substYMax (FormVal.num 0) = FormVal.num 0
  ∧ substYMax (FormVal.str "") = FormVal.str "" := by
  refine ⟨?h0, ?h1, ?h2, ?h3, ?h4, ?h5, ?h6, by decide, by decide, by decide⟩
  case h0 =>
    intro svc routeID s h
    rw [ngOnInit_eq_dispatchPlot]
    simp [ScenarioResultsComponent.getResultsDispatchPlot, setupState, substYMax, h]
  case h1 =>
    intro svc routeID s h
    rw [ngOnInit_eq_capacityNewPlot]
    simp [ScenarioResultsComponent.getResultsCapacityNewPlot, setupState, substYMax, h]
  case h2 =>
    intro svc routeID s h
    rw [ngOnInit_eq_capacityRetiredPlot]
    simp [ScenarioResultsComponent.getResultsCapacityRetiredPlot, setupState, substYMax, h]
  case h3 =>
    intro svc routeID s h
    rw [ngOnInit_eq_capacityTotalPlot]
    simp [ScenarioResultsComponent.getResultsCapacityTotalPlot, setupState, substYMax, h]
  case h4 =>
    intro svc routeID s h
    rw [ngOnInit_eq_energyPlot]
    simp [ScenarioResultsComponent.getResultsEnergyPlot, setupState, substYMax, h]
  case h5 =>
    intro svc routeID s h
    rw [ngOnInit_eq_costPlot]
    simp [ScenarioResultsComponent.getResultsCostPlot, setupState, substYMax, h]
  case h6 =>
    intro svc routeID s h
    rw [ngOnInit_eq_capacityFactorPlot]
    simp [ScenarioResultsComponent.getResultsCapacityFactorPlot, setupState, substYMax, h]

/-- Claim C10: for every plot view activation, the render target name field
is assigned synchronously from the current parameter values as part of the
activation itself, before any fetch completion: immediately after ngOnInit
the stored name already reflects the new parameters while the stored
visualization description is still whatever it was before (the fetch has
not completed and need never complete). -/
theorem claim10_renderTargetNameSynchronous (svc : ScenarioResultsService)
    (routeID : Int) (s : ScenarioResultsComponent) :
    ((s.ngOnInit svc routeID "results-dispatch-plot").dispatchPlotHTMLName = some (dispatchPlotNameOf s.dispatchPlotOptionsForm.dispatchPlotLoadZone s.dispatchPlotOptionsForm.dispatchPlotHorizon)
      ∧ (s.ngOnInit svc routeID "results-dispatch-plot").dispatchPlotJSON = s.dispatchPlotJSON)
  ∧
    ((s.ngOnInit svc routeID "results-capacity-new-plot").capacityNewPlotHTMLName = some (newCapacityPlotNameOf s.capacityNewPlotOptionsForm.capacityNewPlotLoadZone)
      ∧ (s.ngOnInit svc routeID "results-capacity-new-plot").capacityNewPlotJSON = s.capacityNewPlotJSON)
  ∧
    ((s.ngOnInit svc routeID "results-capacity-retired-plot").capacityRetiredPlotHTMLName = some (retiredCapacityPlotNameOf s.capacityRetiredPlotOptionsForm.capacityRetiredPlotLoadZone)
      ∧ (s.ngOnInit svc routeID "results-capacity-retired-plot").capacityRetiredPlotJSON = s.capacityRetiredPlotJSON)
  ∧
    ((s.ngOnInit svc routeID "results-capacity-total-plot").capacityTotalPlotHTMLName = some (allCapacityPlotNameOf s.capacityTotalPlotOptionsForm.capacityTotalPlotLoadZone)
      ∧ (s.ngOnInit svc routeID "results-capacity-total-plot").capacityTotalPlotJSON = s.capacityTotalPlotJSON)
  ∧
    ((s.ngOnInit svc routeID "results-energy-plot").energyPlotHTMLName = some (energyPlotNameOf s.energyPlotOptionsForm.energyPlotLoadZone s.energyPlotOptionsForm.energyPlotStage)
      ∧ (s.ngOnInit svc routeID "results-energy-plot").energyPlotJSON = s.energyPlotJSON)
  ∧
    ((s.ngOnInit svc routeID "results-cost-plot").costPlotHTMLName = some (costPlotNameOf s.costPlotOptionsForm.costPlotLoadZone s.costPlotOptionsForm.costPlotStage)
      ∧ (s.ngOnInit svc routeID "results-cost-plot").costPlotJSON = s.costPlotJSON)
  ∧
    ((s.ngOnInit svc routeID "results-capacity-factor-plot").capacityFactorPlotHTMLName = some (capFactorPlotNameOf s.capacityFactorPlotOptionsForm.capacityFactorPlotLoadZone s.capacityFactorPlotOptionsForm.capacityFactorPlotStage)
      ∧ (s.ngOnInit svc routeID "results-capacity-factor-plot").capacityFactorPlotJSON = s.capacityFactorPlotJSON) := by
  refine ⟨?h0, ?h1, ?h2, ?h3, ?h4, ?h5, ?h6⟩
  case h0 =>
    rw [ngOnInit_eq_dispatchPlot]
    exact ⟨rfl, rfl⟩
  case h1 =>
    rw [ngOnInit_eq_capacityNewPlot]
    exact ⟨rfl, rfl⟩
  case h2 =>
    rw [ngOnInit_eq_capacityRetiredPlot]
    exact ⟨rfl, rfl⟩
  case h3 =>
    rw [ngOnInit_eq_capacityTotalPlot]
    exact ⟨rfl, rfl⟩
  case h4 =>
    rw [ngOnInit_eq_energyPlot]
    exact ⟨rfl, rfl⟩
  case h5 =>
    rw [ngOnInit_eq_costPlot]
    exact ⟨rfl, rfl⟩
  case h6 =>
    rw [ngOnInit_eq_capacityFactorPlot]
    exact ⟨rfl, rfl⟩

/-- State used in the dispatch-plot part of the claim C3 scenario: the user
has chosen load zone ZoneA and horizon 2030 and left y-axis-max unset
(null). -/
def stateC3 : ScenarioResultsComponent :=
  { initState with dispatchPlotOptionsForm :=
      { dispatchPlotLoadZone := FormVal.str "ZoneA",
        dispatchPlotHorizon := FormVal.str "2030",
        dispatchPlotYMax := FormVal.null } }

/-- Claim C3: with scenario id 42, activating results-project-capacity
calls its table fetch with argument 42, stores the returned rows, and makes
them appear exactly once in the list of all fetched tables; activating
results-dispatch-plot with load zone ZoneA, horizon 2030 and y-axis-max
unset sets the render target name to dispatchPlot-ZoneA-2030 and calls the
plot fetch with arguments 42, ZoneA, 2030, default. -/
theorem claim3_concreteScenario :
    ((initState.ngOnInit svcA 42 "results-project-capacity").calls =
       [ServiceCall.getOptions 42, ServiceCall.getResultsProjectCapacity 42]
     ∧ (runAll (initState.ngOnInit svcA 42 "results-project-capacity")).resultsProjectCapacity =
       some { rows := ["projectCapacity", "42"] }
     ∧ (runAll (initState.ngOnInit svcA 42 "results-project-capacity")).allTables.count
         { rows := ["projectCapacity", "42"] } = 1)
  ∧ ((stateC3.ngOnInit svcA 42 "results-dispatch-plot").dispatchPlotHTMLName =
       some "dispatchPlot-ZoneA-2030"
     ∧ (stateC3.ngOnInit svcA 42 "results-dispatch-plot").calls =
       [ServiceCall.getOptions 42,
        ServiceCall.getResultsDispatchPlot 42 (FormVal.str "ZoneA") (FormVal.str "2030")
          (FormVal.str "default")]) := by
  decide

/-- Activation with a catalog key issues exactly one per-view result fetch
on top of the existing call log. -/
theorem countResultFetches_ngOnInit_mem (svc : ScenarioResultsService) (routeID : Int)
    (key : String) (s : ScenarioResultsComponent) (h : key ∈ catalogKeys) :
    countResultFetches (s.ngOnInit svc routeID key).calls = countResultFetches s.calls + 1 := by
  simp only [catalogKeys, List.mem_cons, List.not_mem_nil, or_false] at h
  rcases h with rfl | rfl | rfl | rfl | rfl | rfl | rfl | rfl | rfl | rfl | rfl | rfl | rfl | rfl | rfl | rfl | rfl | rfl | rfl
  · rw [ngOnInit_eq_projectCapacity]
    simp [countResultFetches, ScenarioResultsComponent.getResultsProjectCapacity, setupState,
          ServiceCall.isResultFetch, List.filter_append]
  · rw [ngOnInit_eq_projectRetirements]
    simp [countResultFetches, ScenarioResultsComponent.getResultsProjectRetirements, setupState,
          ServiceCall.isResultFetch, List.filter_append]
  · rw [ngOnInit_eq_projectNewBuild]
    simp [countResultFetches, ScenarioResultsComponent.getResultsProjectNewBuild, setupState,
          ServiceCall.isResultFetch, List.filter_append]
  · rw [ngOnInit_eq_projectDispatch]
    simp [countResultFetches, ScenarioResultsComponent.getResultsProjectDispatch, setupState,
          ServiceCall.isResultFetch, List.filter_append]
  · rw [ngOnInit_eq_projectCarbon]
    simp [countResultFetches, ScenarioResultsComponent.getResultsProjectCarbon, setupState,
          ServiceCall.isResultFetch, List.filter_append]
  · rw [ngOnInit_eq_transmissionCapacity]
    simp [countResultFetches, ScenarioResultsComponent.getResultsTransmissionCapacity, setupState,
          ServiceCall.isResultFetch, List.filter_append]
  · rw [ngOnInit_eq_transmissionFlows]
    simp [countResultFetches, ScenarioResultsComponent.getResultsTransmissionFlows, setupState,
          ServiceCall.isResultFetch, List.filter_append]
  · rw [ngOnInit_eq_importsExports]
    simp [countResultFetches, ScenarioResultsComponent.getResultsImportsExports, setupState,
          ServiceCall.isResultFetch, List.filter_append]
  · rw [ngOnInit_eq_systemLoadBalance]
    simp [countResultFetches, ScenarioResultsComponent.getResultsSystemLoadBalance, setupState,
          ServiceCall.isResultFetch, List.filter_append]
  · rw [ngOnInit_eq_systemRPS]
    simp [countResultFetches, ScenarioResultsComponent.getResultsSystemRPS, setupState,
          ServiceCall.isResultFetch, List.filter_append]
  · rw [ngOnInit_eq_systemCarbonCap]
    simp [countResultFetches, ScenarioResultsComponent.getResultsSystemCarbonCap, setupState,
          ServiceCall.isResultFetch, List.filter_append]
  · rw [ngOnInit_eq_systemPRM]
    simp [countResultFetches, ScenarioResultsComponent.getResultsSystemPRM, setupState,
          ServiceCall.isResultFetch, List.filter_append]
  · rw [ngOnInit_eq_dispatchPlot]
    simp [countResultFetches, ScenarioResultsComponent.getResultsDispatchPlot, setupState,
          ServiceCall.isResultFetch, List.filter_append]
  · rw [ngOnInit_eq_capacityNewPlot]
    simp [countResultFetches, ScenarioResultsComponent.getResultsCapacityNewPlot, setupState,
          ServiceCall.isResultFetch, List.filter_append]
  · rw [ngOnInit_eq_capacityRetiredPlot]
    simp [countResultFetches, ScenarioResultsComponent.getResultsCapacityRetiredPlot, setupState,
          ServiceCall.isResultFetch, List.filter_append]
  · rw [ngOnInit_eq_capacityTotalPlot]
    simp [countResultFetches, ScenarioResultsComponent.getResultsCapacityTotalPlot, setupState,
          ServiceCall.isResultFetch, List.filter_append]
  · rw [ngOnInit_eq_energyPlot]
    simp [countResultFetches, ScenarioResultsComponent.getResultsEnergyPlot, setupState,
          ServiceCall.isResultFetch, List.filter_append]
  · rw [ngOnInit_eq_costPlot]
    simp [countResultFetches, ScenarioResultsComponent.getResultsCostPlot, setupState,
          ServiceCall.isResultFetch, List.filter_append]
  · rw [ngOnInit_eq_capacityFactorPlot]
    simp [countResultFetches, ScenarioResultsComponent.getResultsCapacityFactorPlot, setupState,
          ServiceCall.isResultFetch, List.filter_append]

/-- Every activation, with any key, issues exactly one getOptions fetch on
top of the existing call log. -/
theorem countOptionsCalls_ngOnInit (svc : ScenarioResultsService) (routeID : Int)
    (key : String) (s : ScenarioResultsComponent) :
    countOptionsCalls (s.ngOnInit svc routeID key).calls = countOptionsCalls s.calls + 1 := by
  by_cases h : key ∈ catalogKeys
  · simp only [catalogKeys, List.mem_cons, List.not_mem_nil, or_false] at h
    rcases h with rfl | rfl | rfl | rfl | rfl | rfl | rfl | rfl | rfl | rfl | rfl | rfl | rfl | rfl | rfl | rfl | rfl | rfl | rfl
    · rw [ngOnInit_eq_projectCapacity]
      simp [countOptionsCalls, ScenarioResultsComponent.getResultsProjectCapacity, setupState,
            ServiceCall.isOptionsFetch, List.filter_append]
    · rw [ngOnInit_eq_projectRetirements]
      simp [countOptionsCalls, ScenarioResultsComponent.getResultsProjectRetirements, setupState,
            ServiceCall.isOptionsFetch, List.filter_append]
    · rw [ngOnInit_eq_projectNewBuild]
      simp [countOptionsCalls, ScenarioResultsComponent.getResultsProjectNewBuild, setupState,
            ServiceCall.isOptionsFetch, List.filter_append]
    · rw [ngOnInit_eq_projectDispatch]
      simp [countOptionsCalls, ScenarioResultsComponent.getResultsProjectDispatch, setupState,
            ServiceCall.isOptionsFetch, List.filter_append]
    · rw [ngOnInit_eq_projectCarbon]
      simp [countOptionsCalls, ScenarioResultsComponent.getResultsProjectCarbon, setupState,
            ServiceCall.isOptionsFetch, List.filter_append]
    · rw [ngOnInit_eq_transmissionCapacity]
      simp [countOptionsCalls, ScenarioResultsComponent.getResultsTransmissionCapacity, setupState,
            ServiceCall.isOptionsFetch, List.filter_append]
    · rw [ngOnInit_eq_transmissionFlows]
      simp [countOptionsCalls, ScenarioResultsComponent.getResultsTransmissionFlows, setupState,
            ServiceCall.isOptionsFetch, List.filter_append]
    · rw [ngOnInit_eq_importsExports]
      simp [countOptionsCalls, ScenarioResultsComponent.getResultsImportsExports, setupState,
            ServiceCall.isOptionsFetch, List.filter_append]
    · rw [ngOnInit_eq_systemLoadBalance]
      simp [countOptionsCalls, ScenarioResultsComponent.getResultsSystemLoadBalance, setupState,
            ServiceCall.isOptionsFetch, List.filter_append]
    · rw [ngOnInit_eq_systemRPS]
      simp [countOptionsCalls, ScenarioResultsComponent.getResultsSystemRPS, setupState,
            ServiceCall.isOptionsFetch, List.filter_append]
    · rw [ngOnInit_eq_systemCarbonCap]
      simp [countOptionsCalls, ScenarioResultsComponent.getResultsSystemCarbonCap, setupState,
            ServiceCall.isOptionsFetch, List.filter_append]
    · rw [ngOnInit_eq_systemPRM]
      simp [countOptionsCalls, ScenarioResultsComponent.getResultsSystemPRM, setupState,
            ServiceCall.isOptionsFetch, List.filter_append]
    · rw [ngOnInit_eq_dispatchPlot]
      simp [countOptionsCalls, ScenarioResultsComponent.getResultsDispatchPlot, setupState,
            ServiceCall.isOptionsFetch, List.filter_append]
    · rw [ngOnInit_eq_capacityNewPlot]
      simp [countOptionsCalls, ScenarioResultsComponent.getResultsCapacityNewPlot, setupState,
            ServiceCall.isOptionsFetch, List.filter_append]
    · rw [ngOnInit_eq_capacityRetiredPlot]
      simp [countOptionsCalls, ScenarioResultsComponent.getResultsCapacityRetiredPlot, setupState,
            ServiceCall.isOptionsFetch, List.filter_append]
    · rw [ngOnInit_eq_capacityTotalPlot]
      simp [countOptionsCalls, ScenarioResultsComponent.getResultsCapacityTotalPlot, setupState,
            ServiceCall.isOptionsFetch, List.filter_append]
    · rw [ngOnInit_eq_energyPlot]
      simp [countOptionsCalls, ScenarioResultsComponent.getResultsEnergyPlot, setupState,
            ServiceCall.isOptionsFetch, List.filter_append]
    · rw [ngOnInit_eq_costPlot]
      simp [countOptionsCalls, ScenarioResultsComponent.getResultsCostPlot, setupState,
            ServiceCall.isOptionsFetch, List.filter_append]
    · rw [ngOnInit_eq_capacityFactorPlot]
      simp [countOptionsCalls, ScenarioResultsComponent.getResultsCapacityFactorPlot, setupState,
            ServiceCall.isOptionsFetch, List.filter_append]
  · rw [ngOnInit_eq_unknown svc routeID key s h]
    simp [countOptionsCalls, setupState, ServiceCall.isOptionsFetch, List.filter_append]

/-- Claim C7: selecting a new view key does not clear any previously
fetched result of any other view: for distinct catalog keys A and B, with
no fetch still in flight (B has completed or was never started, A has
completed and its result is whatever the state stores), activating B and
letting its fetches complete leaves the stored result slots of A (table
rows, or visualization description and render target name) unchanged. -/
theorem claim7_noCrossViewClearing (svc : ScenarioResultsService) (routeID : Int)
    (s : ScenarioResultsComponent) (keyA keyB : String)
    (hA : keyA ∈ catalogKeys) (hB : keyB ∈ catalogKeys) (hne : keyA ≠ keyB)
    (hp : s.pending = []) :
    viewResult keyA (runAll (s.ngOnInit svc routeID keyB)) = viewResult keyA s := by
  simp only [catalogKeys, List.mem_cons, List.not_mem_nil, or_false] at hA hB
  rcases hB with rfl | rfl | rfl | rfl | rfl | rfl | rfl | rfl | rfl | rfl | rfl | rfl | rfl | rfl | rfl | rfl | rfl | rfl | rfl
  · rw [runAll_ngOnInit_projectCapacity svc routeID s hp]
    rcases hA with rfl | rfl | rfl | rfl | rfl | rfl | rfl | rfl | rfl | rfl | rfl | rfl | rfl | rfl | rfl | rfl | rfl | rfl | rfl <;> first | exact absurd rfl hne | rfl
  · rw [runAll_ngOnInit_projectRetirements svc routeID s hp]
    rcases hA with rfl | rfl | rfl | rfl | rfl | rfl | rfl | rfl | rfl | rfl | rfl | rfl | rfl | rfl | rfl | rfl | rfl | rfl | rfl <;> first | exact absurd rfl hne | rfl
  · rw [runAll_ngOnInit_projectNewBuild svc routeID s hp]
    rcases hA with rfl | rfl | rfl | rfl | rfl | rfl | rfl | rfl | rfl | rfl | rfl | rfl | rfl | rfl | rfl | rfl | rfl | rfl | rfl <;> first | exact absurd rfl hne | rfl
  · rw [runAll_ngOnInit_projectDispatch svc routeID s hp]
    rcases hA with rfl | rfl | rfl | rfl | rfl | rfl | rfl | rfl | rfl | rfl | rfl | rfl | rfl | rfl | rfl | rfl | rfl | rfl | rfl <;> first | exact absurd rfl hne | rfl
  · rw [runAll_ngOnInit_projectCarbon svc routeID s hp]
    rcases hA with rfl | rfl | rfl | rfl | rfl | rfl | rfl | rfl | rfl | rfl | rfl | rfl | rfl | rfl | rfl | rfl | rfl | rfl | rfl <;> first | exact absurd rfl hne | rfl
  · rw [runAll_ngOnInit_transmissionCapacity svc routeID s hp]
    rcases hA with rfl | rfl | rfl | rfl | rfl | rfl | rfl | rfl | rfl | rfl | rfl | rfl | rfl | rfl | rfl | rfl | rfl | rfl | rfl <;> first | exact absurd rfl hne | rfl
  · rw [runAll_ngOnInit_transmissionFlows svc routeID s hp]
    rcases hA with rfl | rfl | rfl | rfl | rfl | rfl | rfl | rfl | rfl | rfl | rfl | rfl | rfl | rfl | rfl | rfl | rfl | rfl | rfl <;> first | exact absurd rfl hne | rfl
  · rw [runAll_ngOnInit_importsExports svc routeID s hp]
    rcases hA with rfl | rfl | rfl | rfl | rfl | rfl | rfl | rfl | rfl | rfl | rfl | rfl | rfl | rfl | rfl | rfl | rfl | rfl | rfl <;> first | exact absurd rfl hne | rfl
  · rw [runAll_ngOnInit_systemLoadBalance svc routeID s hp]
    rcases hA with rfl | rfl | rfl | rfl | rfl | rfl | rfl | rfl | rfl | rfl | rfl | rfl | rfl | rfl | rfl | rfl | rfl | rfl | rfl <;> first | exact absurd rfl hne | rfl
  · rw [runAll_ngOnInit_systemRPS svc routeID s hp]
    rcases hA with rfl | rfl | rfl | rfl | rfl | rfl | rfl | rfl | rfl | rfl | rfl | rfl | rfl | rfl | rfl | rfl | rfl | rfl | rfl <;> first | exact absurd rfl hne | rfl
  · rw [runAll_ngOnInit_systemCarbonCap svc routeID s hp]
    rcases hA with rfl | rfl | rfl | rfl | rfl | rfl | rfl | rfl | rfl | rfl | rfl | rfl | rfl | rfl | rfl | rfl | rfl | rfl | rfl <;> first | exact absurd rfl hne | rfl
  · rw [runAll_ngOnInit_systemPRM svc routeID s hp]
    rcases hA with rfl | rfl | rfl | rfl | rfl | rfl | rfl | rfl | rfl | rfl | rfl | rfl | rfl | rfl | rfl | rfl | rfl | rfl | rfl <;> first | exact absurd rfl hne | rfl
  · rw [runAll_ngOnInit_dispatchPlot svc routeID s hp]
    rcases hA with rfl | rfl | rfl | rfl | rfl | rfl | rfl | rfl | rfl | rfl | rfl | rfl | rfl | rfl | rfl | rfl | rfl | rfl | rfl <;> first | exact absurd rfl hne | rfl
  · rw [runAll_ngOnInit_capacityNewPlot svc routeID s hp]
    rcases hA with rfl | rfl | rfl | rfl | rfl | rfl | rfl | rfl | rfl | rfl | rfl | rfl | rfl | rfl | rfl | rfl | rfl | rfl | rfl <;> first | exact absurd rfl hne | rfl
  · rw [runAll_ngOnInit_capacityRetiredPlot svc routeID s hp]
    rcases hA with rfl | rfl | rfl | rfl | rfl | rfl | rfl | rfl | rfl | rfl | rfl | rfl | rfl | rfl | rfl | rfl | rfl | rfl | rfl <;> first | exact absurd rfl hne | rfl
  · rw [runAll_ngOnInit_capacityTotalPlot svc routeID s hp]
    rcases hA with rfl | rfl | rfl | rfl | rfl | rfl | rfl | rfl | rfl | rfl | rfl | rfl | rfl | rfl | rfl | rfl | rfl | rfl | rfl <;> first | exact absurd rfl hne | rfl
  · rw [runAll_ngOnInit_energyPlot svc routeID s hp]
    rcases hA with rfl | rfl | rfl | rfl | rfl | rfl | rfl | rfl | rfl | rfl | rfl | rfl | rfl | rfl | rfl | rfl | rfl | rfl | rfl <;> first | exact absurd rfl hne | rfl
  · rw [runAll_ngOnInit_costPlot svc routeID s hp]
    rcases hA with rfl | rfl | rfl | rfl | rfl | rfl | rfl | rfl | rfl | rfl | rfl | rfl | rfl | rfl | rfl | rfl | rfl | rfl | rfl <;> first | exact absurd rfl hne | rfl
  · rw [runAll_ngOnInit_capacityFactorPlot svc routeID s hp]
    rcases hA with rfl | rfl | rfl | rfl | rfl | rfl | rfl | rfl | rfl | rfl | rfl | rfl | rfl | rfl | rfl | rfl | rfl | rfl | rfl <;> first | exact absurd rfl hne | rfl

/-- Claim C8: one activation issues at most one per-view result fetch
(table or plot): the selection key matches at most one branch of the
dispatch chain, so at most one fetch operation is added to the call log. -/
theorem claim8_atMostOneResultFetch (svc : ScenarioResultsService) (routeID : Int)
    (key : String) (s : ScenarioResultsComponent) :
    countResultFetches (s.ngOnInit svc routeID key).calls ≤ countResultFetches s.calls + 1 := by
  by_cases h : key ∈ catalogKeys
  · exact le_of_eq (countResultFetches_ngOnInit_mem svc routeID key s h)
  · rw [ngOnInit_eq_unknown svc routeID key s h]
    have he : countResultFetches (setupState svc routeID key s).calls = countResultFetches s.calls := by
      simp [countResultFetches, setupState, ServiceCall.isResultFetch, List.filter_append]
    rw [he]
    exact Nat.le_succ _

/-- Every activation resets the list of all fetched tables to empty before
any completion can repopulate it. -/
theorem allTables_ngOnInit (svc : ScenarioResultsService) (routeID : Int)
    (key : String) (s : ScenarioResultsComponent) :
    (s.ngOnInit svc routeID key).allTables = [] := by
  by_cases h : key ∈ catalogKeys
  · simp only [catalogKeys, List.mem_cons, List.not_mem_nil, or_false] at h
    rcases h with rfl | rfl | rfl | rfl | rfl | rfl | rfl | rfl | rfl | rfl | rfl | rfl | rfl | rfl | rfl | rfl | rfl | rfl | rfl
    · rw [ngOnInit_eq_projectCapacity]
      rfl
    · rw [ngOnInit_eq_projectRetirements]
      rfl
    · rw [ngOnInit_eq_projectNewBuild]
      rfl
    · rw [ngOnInit_eq_projectDispatch]
      rfl
    · rw [ngOnInit_eq_projectCarbon]
      rfl
    · rw [ngOnInit_eq_transmissionCapacity]
      rfl
    · rw [ngOnInit_eq_transmissionFlows]
      rfl
    · rw [ngOnInit_eq_importsExports]
      rfl
    · rw [ngOnInit_eq_systemLoadBalance]
      rfl
    · rw [ngOnInit_eq_systemRPS]
      rfl
    · rw [ngOnInit_eq_systemCarbonCap]
      rfl
    · rw [ngOnInit_eq_systemPRM]
      rfl
    · rw [ngOnInit_eq_dispatchPlot]
      rfl
    · rw [ngOnInit_eq_capacityNewPlot]
      rfl
    · rw [ngOnInit_eq_capacityRetiredPlot]
      rfl
    · rw [ngOnInit_eq_capacityTotalPlot]
      rfl
    · rw [ngOnInit_eq_energyPlot]
      rfl
    · rw [ngOnInit_eq_costPlot]
      rfl
    · rw [ngOnInit_eq_capacityFactorPlot]
      rfl
  · rw [ngOnInit_eq_unknown svc routeID key s h]
    rfl

/-- Session state after activating the project-capacity table view at
scenario 42 and letting both of its outstanding fetches resolve. -/
def sessionCap42 : ScenarioResultsComponent :=
  runAll (initState.ngOnInit svcA 42 "results-project-capacity")

/-- Session state after then pressing the project-dispatch results button
(a second activation) and letting its fetches resolve. -/
def sessionTwoTables : ScenarioResultsComponent :=
  runAll (sessionCap42.showResults svcA 42 "results-project-dispatch")

/-- Counterexample to claim C4 as stated: in a session in which the
project-capacity table was fetched and stored and then the project-dispatch
table view was activated and fetched, the list of all fetched tables holds
only the dispatch rows — the capacity rows are gone, because every
activation re-runs the setup routine, which resets the list. The list does
not accumulate across activations. -/
theorem claim4_counterexample :
    sessionCap42.allTables = [{ rows := ["projectCapacity", "42"] }]
  ∧ sessionTwoTables.allTables = [{ rows := ["projectDispatch", "42"] }]
  ∧ ({ rows := ["projectCapacity", "42"] } : ScenarioResults) ∉ sessionTwoTables.allTables := by
  decide

/-- Claim C4 (amended): for every table view, activating it invokes its
fetchTable operation with the scenario id, and on completion the returned
row sequence is stored as the result of that view and appended to the list of
all fetched tables, which then contains it exactly once; however the list
does not accumulate across activations — it is reset to empty at the start
of every activation, so it reflects only completions since the most recent
activation. -/
theorem claim4_tableResultsPerActivation :
    (∀ svc routeID (s : ScenarioResultsComponent), s.pending = [] →
       ((runAll (s.ngOnInit svc routeID "results-project-capacity")).resultsProjectCapacity =
           some (svc.getResultsProjectCapacity routeID)
         ∧ (runAll (s.ngOnInit svc routeID "results-project-capacity")).allTables =
           [svc.getResultsProjectCapacity routeID])
       ∧
       ((runAll (s.ngOnInit svc routeID "results-project-retirements")).resultsProjectRetirements =
           some (svc.getResultsProjectRetirements routeID)
         ∧ (runAll (s.ngOnInit svc routeID "results-project-retirements")).allTables =
           [svc.getResultsProjectRetirements routeID])
       ∧
       ((runAll (s.ngOnInit svc routeID "results-project-new-build")).resultsProjectNewBuild =
           some (svc.getResultsProjectNewBuild routeID)
         ∧ (runAll (s.ngOnInit svc routeID "results-project-new-build")).allTables =
           [svc.getResultsProjectNewBuild routeID])
       ∧
       ((runAll (s.ngOnInit svc routeID "results-project-dispatch")).resultsProjectDispatch =
           some (svc.getResultsProjectDispatch routeID)
         ∧ (runAll (s.ngOnInit svc routeID "results-project-dispatch")).allTables =
           [svc.getResultsProjectDispatch routeID])
       ∧
       ((runAll (s.ngOnInit svc routeID "results-project-carbon")).resultsProjectCarbon =
           some (svc.getResultsProjectCarbon routeID)
         ∧ (runAll (s.ngOnInit svc routeID "results-project-carbon")).allTables =
           [svc.getResultsProjectCarbon routeID])
       ∧
       ((runAll (s.ngOnInit svc routeID "results-transmission-capacity")).resultsTransmissionCapacity =
           some (svc.getResultsTransmissionCapacity routeID)
         ∧ (runAll (s.ngOnInit svc routeID "results-transmission-capacity")).allTables =
           [svc.getResultsTransmissionCapacity routeID])
       ∧
       ((runAll (s.ngOnInit svc routeID "results-transmission-flows")).resultsTransmissionFlows =
           some (svc.getResultsTransmissionFlows routeID)
         ∧ (runAll (s.ngOnInit svc routeID "results-transmission-flows")).allTables =
           [svc.getResultsTransmissionFlows routeID])
       ∧
       ((runAll (s.ngOnInit svc routeID "results-imports-exports")).resultsImportsExports =
           some (svc.getResultsImportsExports routeID)
         ∧ (runAll (s.ngOnInit svc routeID "results-imports-exports")).allTables =
           [svc.getResultsImportsExports routeID])
       ∧
       ((runAll (s.ngOnInit svc routeID "results-system-load-balance")).resultsSystemLoadBalance =
           some (svc.getResultsSystemLoadBalance routeID)
         ∧ (runAll (s.ngOnInit svc routeID "results-system-load-balance")).allTables =
           [svc.getResultsSystemLoadBalance routeID])
       ∧
       ((runAll (s.ngOnInit svc routeID "results-system-rps")).resultsSystemRPS =
           some (svc.getResultsSystemRPS routeID)
         ∧ (runAll (s.ngOnInit svc routeID "results-system-rps")).allTables =
           [svc.getResultsSystemRPS routeID])
       ∧
       ((runAll (s.ngOnInit svc routeID "results-system-carbon-cap")).resultsSystemCarbonCap =
           some (svc.getResultsSystemCarbonCap routeID)
         ∧ (runAll (s.ngOnInit svc routeID "results-system-carbon-cap")).allTables =
           [svc.getResultsSystemCarbonCap routeID])
       ∧
       ((runAll (s.ngOnInit svc routeID "results-system-prm")).resultsSystemPRM =
           some (svc.getResultsSystemPRM routeID)
         ∧ (runAll (s.ngOnInit svc routeID "results-system-prm")).allTables =
           [svc.getResultsSystemPRM routeID]))
  ∧ (∀ svc routeID key (s : ScenarioResultsComponent),
       (s.ngOnInit svc routeID key).allTables = []) := by
  constructor
  · intro svc routeID s hp
    refine ⟨?_, ?_, ?_, ?_, ?_, ?_, ?_, ?_, ?_, ?_, ?_, ?_⟩
    · rw [runAll_ngOnInit_projectCapacity svc routeID s hp]
      exact ⟨rfl, rfl⟩
    · rw [runAll_ngOnInit_projectRetirements svc routeID s hp]
      exact ⟨rfl, rfl⟩
    · rw [runAll_ngOnInit_projectNewBuild svc routeID s hp]
      exact ⟨rfl, rfl⟩
    · rw [runAll_ngOnInit_projectDispatch svc routeID s hp]
      exact ⟨rfl, rfl⟩
    · rw [runAll_ngOnInit_projectCarbon svc routeID s hp]
      exact ⟨rfl, rfl⟩
    · rw [runAll_ngOnInit_transmissionCapacity svc routeID s hp]
      exact ⟨rfl, rfl⟩
    · rw [runAll_ngOnInit_transmissionFlows svc routeID s hp]
      exact ⟨rfl, rfl⟩
    · rw [runAll_ngOnInit_importsExports svc routeID s hp]
      exact ⟨rfl, rfl⟩
    · rw [runAll_ngOnInit_systemLoadBalance svc routeID s hp]
      exact ⟨rfl, rfl⟩
    · rw [runAll_ngOnInit_systemRPS svc routeID s hp]
      exact ⟨rfl, rfl⟩
    · rw [runAll_ngOnInit_systemCarbonCap svc routeID s hp]
      exact ⟨rfl, rfl⟩
    · rw [runAll_ngOnInit_systemPRM svc routeID s hp]
      exact ⟨rfl, rfl⟩
  · exact fun svc routeID key s => allTables_ngOnInit svc routeID key s

/-- Witness for claim C4 at a concrete input: a fresh page session at
scenario 9 activating the system-PRM table view. -/
theorem claim4_witness :
    (runAll (initState.ngOnInit svcA 9 "results-system-prm")).resultsSystemPRM =
      some (svcA.getResultsSystemPRM 9)
  ∧ (runAll (initState.ngOnInit svcA 9 "results-system-prm")).allTables =
      [svcA.getResultsSystemPRM 9] := by
  exact (claim4_tableResultsPerActivation.1 svcA 9 initState rfl).2.2.2.2.2.2.2.2.2.2.2

/-- Counterexample to claim C5 as stated: with the scenario id fixed at 42,
a session with two view activations issues two getOptions fetches — the
option lists are fetched once per activation (the setup routine re-runs on
every button press), not once per scenario. -/
theorem claim5_counterexample :
    countOptionsCalls (sessionCap42.showResults svcA 42 "results-project-dispatch").calls = 2
  ∧ countOptionsCalls (sessionCap42.showResults svcA 42 "results-project-dispatch").calls ≠ 1 := by
  decide

/-- Claim C5 (amended): the filter option lists are fetched via getOptions
exactly once per activation — every activation, whatever its key, adds
exactly one getOptions call — and an activation whose fetches resolve
leaves allResultsForms rebuilt wholesale from the freshly fetched option
lists (the same lists again for the same scenario id, since the service is
deterministic); the option lists are not mutated in between. -/
theorem claim5_optionsOncePerActivation :
    (∀ svc routeID key (s : ScenarioResultsComponent),
       countOptionsCalls (s.ngOnInit svc routeID key).calls = countOptionsCalls s.calls + 1)
  ∧ (∀ svc routeID key (s : ScenarioResultsComponent), key ∈ catalogKeys →
       s.pending = [] →
       (runAll (s.ngOnInit svc routeID key)).allResultsForms =
         resultsFormsOf (svc.getOptions routeID)) := by
  constructor
  · exact fun svc routeID key s => countOptionsCalls_ngOnInit svc routeID key s
  · intro svc routeID key s hmem hp
    simp only [catalogKeys, List.mem_cons, List.not_mem_nil, or_false] at hmem
    rcases hmem with rfl | rfl | rfl | rfl | rfl | rfl | rfl | rfl | rfl | rfl | rfl | rfl | rfl | rfl | rfl | rfl | rfl | rfl | rfl
    · rw [runAll_ngOnInit_projectCapacity svc routeID s hp]
    · rw [runAll_ngOnInit_projectRetirements svc routeID s hp]
    · rw [runAll_ngOnInit_projectNewBuild svc routeID s hp]
    · rw [runAll_ngOnInit_projectDispatch svc routeID s hp]
    · rw [runAll_ngOnInit_projectCarbon svc routeID s hp]
    · rw [runAll_ngOnInit_transmissionCapacity svc routeID s hp]
    · rw [runAll_ngOnInit_transmissionFlows svc routeID s hp]
    · rw [runAll_ngOnInit_importsExports svc routeID s hp]
    · rw [runAll_ngOnInit_systemLoadBalance svc routeID s hp]
    · rw [runAll_ngOnInit_systemRPS svc routeID s hp]
    · rw [runAll_ngOnInit_systemCarbonCap svc routeID s hp]
    · rw [runAll_ngOnInit_systemPRM svc routeID s hp]
    · rw [runAll_ngOnInit_dispatchPlot svc routeID s hp]
    · rw [runAll_ngOnInit_capacityNewPlot svc routeID s hp]
    · rw [runAll_ngOnInit_capacityRetiredPlot svc routeID s hp]
    · rw [runAll_ngOnInit_capacityTotalPlot svc routeID s hp]
    · rw [runAll_ngOnInit_energyPlot svc routeID s hp]
    · rw [runAll_ngOnInit_costPlot svc routeID s hp]
    · rw [runAll_ngOnInit_capacityFactorPlot svc routeID s hp]

/-- Witness for claim C5 at a concrete input: a fresh session at scenario 3
activating the cost plot issues one getOptions call and ends with the
forms rebuilt from the fetched option lists. -/
theorem claim5_witness :
    countOptionsCalls (initState.ngOnInit svcA 3 "results-cost-plot").calls = 1
  ∧ (runAll (initState.ngOnInit svcA 3 "results-cost-plot")).allResultsForms =
      resultsFormsOf (svcA.getOptions 3) := by
  constructor
  · have h := claim5_optionsOncePerActivation.1 svcA 3 "results-cost-plot" initState
    simpa [initState, countOptionsCalls] using h
  · exact claim5_optionsOncePerActivation.2 svcA 3 _ initState (by decide) rfl

/-- Counterexample to claim C6 as stated: activating with the malformed key
bogus-key does not fail and surfaces no error of any kind — the activation
routine runs to completion, produces the ordinary setup state (the same
state any unrecognised key produces), and issues zero result fetches. The
unknown key is silently ignored, not surfaced as a hard failure. -/
theorem claim6_counterexample :
    initState.ngOnInit svcA 42 "bogus-key" = setupState svcA 42 "bogus-key" initState
  ∧ countResultFetches (initState.ngOnInit svcA 42 "bogus-key").calls = 0 := by
  refine ⟨ngOnInit_eq_unknown svcA 42 "bogus-key" initState (by decide), ?_⟩
  rw [ngOnInit_eq_unknown svcA 42 "bogus-key" initState (by decide)]
  decide

/-- Claim C6 (amended): a selection key absent from the catalog is silently
ignored rather than surfaced as an error: the activation still runs its
full setup (button and form rebuild, options fetch) and returns a normal
state, but issues no per-view result fetch; a key present in the catalog
issues exactly one result fetch. No error value or failure state exists in
the component for unknown keys. -/
theorem claim6_unknownKeySilentlyIgnored :
    (∀ svc routeID key (s : ScenarioResultsComponent), key ∉ catalogKeys →
       s.ngOnInit svc routeID key = setupState svc routeID key s
       ∧ countResultFetches (s.ngOnInit svc routeID key).calls = countResultFetches s.calls)
  ∧ (∀ svc routeID key (s : ScenarioResultsComponent), key ∈ catalogKeys →
       countResultFetches (s.ngOnInit svc routeID key).calls = countResultFetches s.calls + 1) := by
  constructor
  · intro svc routeID key s h
    have he := ngOnInit_eq_unknown svc routeID key s h
    refine ⟨he, ?_⟩
    rw [he]
    simp [countResultFetches, setupState, ServiceCall.isResultFetch, List.filter_append]
  · exact fun svc routeID key s h => countResultFetches_ngOnInit_mem svc routeID key s h

/-- Witness for claim C6 at concrete inputs: the key utterly-bogus is not
in the catalog and its activation is the bare setup state with no result
fetch, while the catalog key results-system-rps issues exactly one. -/
theorem claim6_witness :
    ("utterly-bogus" ∉ catalogKeys
      ∧ initState.ngOnInit svcA 7 "utterly-bogus" = setupState svcA 7 "utterly-bogus" initState)
  ∧ ("results-system-rps" ∈ catalogKeys
      ∧ countResultFetches (initState.ngOnInit svcA 7 "results-system-rps").calls = 1) := by
  refine ⟨⟨by decide, (claim6_unknownKeySilentlyIgnored.1 svcA 7 "utterly-bogus" initState (by decide)).1⟩,
          ⟨by decide, ?_⟩⟩
  have h := claim6_unknownKeySilentlyIgnored.2 svcA 7 "results-system-rps" initState (by decide)
  simpa [initState, countResultFetches] using h

/-- Witness for claim C7 at concrete inputs: after the project-capacity
table has been fetched and stored at scenario 42, activating the dispatch
plot leaves the stored capacity result untouched. -/
theorem claim7_witness :
    ("results-project-capacity" ∈ catalogKeys
      ∧ "results-dispatch-plot" ∈ catalogKeys
      ∧ "results-project-capacity" ≠ "results-dispatch-plot"
      ∧ sessionCap42.pending = [])
  ∧ viewResult "results-project-capacity"
        (runAll (sessionCap42.ngOnInit svcA 42 "results-dispatch-plot")) =
      viewResult "results-project-capacity" sessionCap42 := by
  refine ⟨⟨by decide, by decide, by decide, by decide⟩, ?_⟩
  exact claim7_noCrossViewClearing svcA 42 sessionCap42 _ _ (by decide) (by decide)
    (by decide) (by decide)

/-- Cancellation at the character-list level: the first varying component
of a two-component render target name determines itself. -/
theorem twoPartName_inj_left (p m a b t : String)
    (h : p ++ a ++ m ++ t = p ++ b ++ m ++ t) : a = b := by
  have hd := congrArg String.data h
  simp only [String.data_append, List.append_assoc] at hd
  exact String.ext (List.append_cancel_right (List.append_cancel_left hd))

/-- Cancellation at the character-list level: the second varying component
of a two-component render target name determines itself. -/
theorem twoPartName_inj_right (p m lz a b : String)
    (h : p ++ lz ++ m ++ a = p ++ lz ++ m ++ b) : a = b := by
  have hd := congrArg String.data h
  simp only [String.data_append, List.append_assoc] at hd
  exact String.ext
    (List.append_cancel_left (List.append_cancel_left (List.append_cancel_left hd)))

/-- Cancellation at the character-list level for a one-component render
target name. -/
theorem onePartName_inj (p a b : String) (h : p ++ a = p ++ b) : a = b := by
  have hd := congrArg String.data h
  simp only [String.data_append] at hd
  exact String.ext (List.append_cancel_left hd)

/-- Counterexample state for claim C1: dispatch-plot filters with
y-axis-max left null. -/
def stateC1a : ScenarioResultsComponent :=
  { initState with dispatchPlotOptionsForm :=
      { dispatchPlotLoadZone := FormVal.str "ZoneA",
        dispatchPlotHorizon := FormVal.str "2030",
        dispatchPlotYMax := FormVal.null } }

/-- Counterexample state for claim C1: the same filters as stateC1a except
that y-axis-max is 100. -/
def stateC1b : ScenarioResultsComponent :=
  { initState with dispatchPlotOptionsForm :=
      { dispatchPlotLoadZone := FormVal.str "ZoneA",
        dispatchPlotHorizon := FormVal.str "2030",
        dispatchPlotYMax := FormVal.num 100 } }

/-- Counterexample to claim C1 as stated: changing only the y-axis-max
filter (null versus 100) does not change the dispatch-plot render target
name — the name is built from the load zone and horizon only, so the
"changing any one filter value produces a different name" part fails for
y-axis-max. -/
theorem claim1_counterexample :
    stateC1a.dispatchPlotOptionsForm.dispatchPlotYMax ≠
      stateC1b.dispatchPlotOptionsForm.dispatchPlotYMax
  ∧ (stateC1a.ngOnInit svcA 42 "results-dispatch-plot").dispatchPlotHTMLName =
    (stateC1b.ngOnInit svcA 42 "results-dispatch-plot").dispatchPlotHTMLName := by
  decide

/-- Claim C1 (amended): the render target name of every plot view is a pure
function of the view key and the name-relevant filter values — the load
zone together with the horizon or stage where the view has one; two
activations with identical parameter values produce identical names, and
changing the load zone, horizon, or stage to a different string produces a
different name; changing only y-axis-max leaves the name unchanged, since
y-axis-max is not part of the name. -/
theorem claim1_renderTargetNamePure :
    (
     (∀ svc routeID (s : ScenarioResultsComponent),
        (s.ngOnInit svc routeID "results-dispatch-plot").dispatchPlotHTMLName =
          some (dispatchPlotNameOf s.dispatchPlotOptionsForm.dispatchPlotLoadZone s.dispatchPlotOptionsForm.dispatchPlotHorizon))
  ∧
     (∀ svc routeID (s : ScenarioResultsComponent),
        (s.ngOnInit svc routeID "results-capacity-new-plot").capacityNewPlotHTMLName =
          some (newCapacityPlotNameOf s.capacityNewPlotOptionsForm.capacityNewPlotLoadZone))
  ∧
     (∀ svc routeID (s : ScenarioResultsComponent),
        (s.ngOnInit svc routeID "results-capacity-retired-plot").capacityRetiredPlotHTMLName =
          some (retiredCapacityPlotNameOf s.capacityRetiredPlotOptionsForm.capacityRetiredPlotLoadZone))
  ∧
     (∀ svc routeID (s : ScenarioResultsComponent),
        (s.ngOnInit svc routeID "results-capacity-total-plot").capacityTotalPlotHTMLName =
          some (allCapacityPlotNameOf s.capacityTotalPlotOptionsForm.capacityTotalPlotLoadZone))
  ∧
     (∀ svc routeID (s : ScenarioResultsComponent),
        (s.ngOnInit svc routeID "results-energy-plot").energyPlotHTMLName =
          some (energyPlotNameOf s.energyPlotOptionsForm.energyPlotLoadZone s.energyPlotOptionsForm.energyPlotStage))
  ∧
     (∀ svc routeID (s : ScenarioResultsComponent),
        (s.ngOnInit svc routeID "results-cost-plot").costPlotHTMLName =
          some (costPlotNameOf s.costPlotOptionsForm.costPlotLoadZone s.costPlotOptionsForm.costPlotStage))
  ∧
     (∀ svc routeID (s : ScenarioResultsComponent),
        (s.ngOnInit svc routeID "results-capacity-factor-plot").capacityFactorPlotHTMLName =
          some (capFactorPlotNameOf s.capacityFactorPlotOptionsForm.capacityFactorPlotLoadZone s.capacityFactorPlotOptionsForm.capacityFactorPlotStage)))
  ∧ (
     (∀ (a b : String) (other : FormVal), a ≠ b →
        dispatchPlotNameOf (FormVal.str a) other ≠ dispatchPlotNameOf (FormVal.str b) other)
  ∧
     (∀ (lz : FormVal) (a b : String), a ≠ b →
        dispatchPlotNameOf lz (FormVal.str a) ≠ dispatchPlotNameOf lz (FormVal.str b))
  ∧
     (∀ (a b : String), a ≠ b →
        newCapacityPlotNameOf (FormVal.str a) ≠ newCapacityPlotNameOf (FormVal.str b))
  ∧
     (∀ (a b : String), a ≠ b →
        retiredCapacityPlotNameOf (FormVal.str a) ≠ retiredCapacityPlotNameOf (FormVal.str b))
  ∧
     (∀ (a b : String), a ≠ b →
        allCapacityPlotNameOf (FormVal.str a) ≠ allCapacityPlotNameOf (FormVal.str b))
  ∧
     (∀ (a b : String) (other : FormVal), a ≠ b →
        energyPlotNameOf (FormVal.str a) other ≠ energyPlotNameOf (FormVal.str b) other)
  ∧
     (∀ (lz : FormVal) (a b : String), a ≠ b →
        energyPlotNameOf lz (FormVal.str a) ≠ energyPlotNameOf lz (FormVal.str b))
  ∧
     (∀ (a b : String) (other : FormVal), a ≠ b →
        costPlotNameOf (FormVal.str a) other ≠ costPlotNameOf (FormVal.str b) other)
  ∧
     (∀ (lz : FormVal) (a b : String), a ≠ b →
        costPlotNameOf lz (FormVal.str a) ≠ costPlotNameOf lz (FormVal.str b))
  ∧
     (∀ (a b : String) (other : FormVal), a ≠ b →
        capFactorPlotNameOf (FormVal.str a) other ≠ capFactorPlotNameOf (FormVal.str b) other)
  ∧
     (∀ (lz : FormVal) (a b : String), a ≠ b →
        capFactorPlotNameOf lz (FormVal.str a) ≠ capFactorPlotNameOf lz (FormVal.str b)))
  ∧ (
     (∀ svc routeID (s : ScenarioResultsComponent) (y : FormVal),
        (({ s with dispatchPlotOptionsForm :=
             { s.dispatchPlotOptionsForm with dispatchPlotYMax := y } } : ScenarioResultsComponent).ngOnInit
             svc routeID "results-dispatch-plot").dispatchPlotHTMLName =
          (s.ngOnInit svc routeID "results-dispatch-plot").dispatchPlotHTMLName)
  ∧
     (∀ svc routeID (s : ScenarioResultsComponent) (y : FormVal),
        (({ s with capacityNewPlotOptionsForm :=
             { s.capacityNewPlotOptionsForm with capacityNewPlotYMax := y } } : ScenarioResultsComponent).ngOnInit
             svc routeID "results-capacity-new-plot").capacityNewPlotHTMLName =
          (s.ngOnInit svc routeID "results-capacity-new-plot").capacityNewPlotHTMLName)
  ∧
     (∀ svc routeID (s : ScenarioResultsComponent) (y : FormVal),
        (({ s with capacityRetiredPlotOptionsForm :=
             { s.capacityRetiredPlotOptionsForm with capacityRetiredPlotYMax := y } } : ScenarioResultsComponent).ngOnInit
             svc routeID "results-capacity-retired-plot").capacityRetiredPlotHTMLName =
          (s.ngOnInit svc routeID "results-capacity-retired-plot").capacityRetiredPlotHTMLName)
  ∧
     (∀ svc routeID (s : ScenarioResultsComponent) (y : FormVal),
        (({ s with capacityTotalPlotOptionsForm :=
             { s.capacityTotalPlotOptionsForm with capacityTotalPlotYMax := y } } : ScenarioResultsComponent).ngOnInit
             svc routeID "results-capacity-total-plot").capacityTotalPlotHTMLName =
          (s.ngOnInit svc routeID "results-capacity-total-plot").capacityTotalPlotHTMLName)
  ∧
     (∀ svc routeID (s : ScenarioResultsComponent) (y : FormVal),
        (({ s with energyPlotOptionsForm :=
             { s.energyPlotOptionsForm with energyPlotYMax := y } } : ScenarioResultsComponent).ngOnInit
             svc routeID "results-energy-plot").energyPlotHTMLName =
          (s.ngOnInit svc routeID "results-energy-plot").energyPlotHTMLName)
  ∧
     (∀ svc routeID (s : ScenarioResultsComponent) (y : FormVal),
        (({ s with costPlotOptionsForm :=
             { s.costPlotOptionsForm with costPlotYMax := y } } : ScenarioResultsComponent).ngOnInit
             svc routeID "results-cost-plot").costPlotHTMLName =
          (s.ngOnInit svc routeID "results-cost-plot").costPlotHTMLName)
  ∧
     (∀ svc routeID (s : ScenarioResultsComponent) (y : FormVal),
        (({ s with capacityFactorPlotOptionsForm :=
             { s.capacityFactorPlotOptionsForm with capacityFactorPlotYMax := y } } : ScenarioResultsComponent).ngOnInit
             svc routeID "results-capacity-factor-plot").capacityFactorPlotHTMLName =
          (s.ngOnInit svc routeID "results-capacity-factor-plot").capacityFactorPlotHTMLName)) := by
  refine ⟨⟨?a0, ?a1, ?a2, ?a3, ?a4, ?a5, ?a6⟩, ⟨?b0, ?b1, ?b2, ?b3, ?b4, ?b5, ?b6, ?b7, ?b8, ?b9, ?b10⟩, ⟨?c0, ?c1, ?c2, ?c3, ?c4, ?c5, ?c6⟩⟩
  case a0 =>
    intro svc routeID s
    rw [ngOnInit_eq_dispatchPlot]
    rfl
  case a1 =>
    intro svc routeID s
    rw [ngOnInit_eq_capacityNewPlot]
    rfl
  case a2 =>
    intro svc routeID s
    rw [ngOnInit_eq_capacityRetiredPlot]
    rfl
  case a3 =>
    intro svc routeID s
    rw [ngOnInit_eq_capacityTotalPlot]
    rfl
  case a4 =>
    intro svc routeID s
    rw [ngOnInit_eq_energyPlot]
    rfl
  case a5 =>
    intro svc routeID s
    rw [ngOnInit_eq_costPlot]
    rfl
  case a6 =>
    intro svc routeID s
    rw [ngOnInit_eq_capacityFactorPlot]
    rfl
  case b0 =>
    intro a b other hne h
    exact hne (twoPartName_inj_left _ _ _ _ _ h)
  case b1 =>
    intro lz a b hne h
    exact hne (twoPartName_inj_right _ _ _ _ _ h)
  case b2 =>
    intro a b hne h
    exact hne (onePartName_inj _ _ _ h)
  case b3 =>
    intro a b hne h
    exact hne (onePartName_inj _ _ _ h)
  case b4 =>
    intro a b hne h
    exact hne (onePartName_inj _ _ _ h)
  case b5 =>
    intro a b other hne h
    exact hne (twoPartName_inj_left _ _ _ _ _ h)
  case b6 =>
    intro lz a b hne h
    exact hne (twoPartName_inj_right _ _ _ _ _ h)
  case b7 =>
    intro a b other hne h
    exact hne (twoPartName_inj_left _ _ _ _ _ h)
  case b8 =>
    intro lz a b hne h
    exact hne (twoPartName_inj_right _ _ _ _ _ h)
  case b9 =>
    intro a b other hne h
    exact hne (twoPartName_inj_left _ _ _ _ _ h)
  case b10 =>
    intro lz a b hne h
    exact hne (twoPartName_inj_right _ _ _ _ _ h)
  case c0 =>
    intro svc routeID s y
    simp only [ngOnInit_eq_dispatchPlot]
    rfl
  case c1 =>
    intro svc routeID s y
    simp only [ngOnInit_eq_capacityNewPlot]
    rfl
  case c2 =>
    intro svc routeID s y
    simp only [ngOnInit_eq_capacityRetiredPlot]
    rfl
  case c3 =>
    intro svc routeID s y
    simp only [ngOnInit_eq_capacityTotalPlot]
    rfl
  case c4 =>
    intro svc routeID s y
    simp only [ngOnInit_eq_energyPlot]
    rfl
  case c5 =>
    intro svc routeID s y
    simp only [ngOnInit_eq_costPlot]
    rfl
  case c6 =>
    intro svc routeID s y
    simp only [ngOnInit_eq_capacityFactorPlot]
    rfl

/-- Witness for claim C1 at concrete inputs: a load-zone change and a
horizon change each change the dispatch-plot name, and a fresh activation
stores the name computed from the current (null) filter values. -/
theorem claim1_witness :
    ("ZoneA" ≠ "ZoneB"
      ∧ dispatchPlotNameOf (FormVal.str "ZoneA") (FormVal.str "2030") ≠
        dispatchPlotNameOf (FormVal.str "ZoneB") (FormVal.str "2030"))
  ∧ ("2030" ≠ "2040"
      ∧ dispatchPlotNameOf (FormVal.str "ZoneA") (FormVal.str "2030") ≠
        dispatchPlotNameOf (FormVal.str "ZoneA") (FormVal.str "2040"))
  ∧ (initState.ngOnInit svcA 4 "results-energy-plot").energyPlotHTMLName =
      some (energyPlotNameOf FormVal.null FormVal.null) := by
  refine ⟨⟨by decide, claim1_renderTargetNamePure.2.1.1 "ZoneA" "ZoneB" (FormVal.str "2030") (by decide)⟩,
          ⟨by decide, claim1_renderTargetNamePure.2.1.2.1 (FormVal.str "ZoneA") "2030" "2040" (by decide)⟩,
          ?_⟩
  exact claim1_renderTargetNamePure.1.2.2.2.2.1 svcA 4 initState

/-- State used by the claim C9 witness: dispatch-plot filters with
y-axis-max holding JavaScript undefined rather than null. -/
def stateC9 : ScenarioResultsComponent :=
  { initState with dispatchPlotOptionsForm :=
      { dispatchPlotLoadZone := FormVal.str "ZoneA",
        dispatchPlotHorizon := FormVal.str "2030",
        dispatchPlotYMax := FormVal.undef } }

/-- Witness for claim C9 at a concrete input: an undefined y-axis-max is
not null and is passed to the dispatch-plot fetch unchanged. -/
theorem claim9_witness :
    stateC9.dispatchPlotOptionsForm.dispatchPlotYMax ≠ FormVal.null
  ∧ (stateC9.ngOnInit svcA 5 "results-dispatch-plot").calls =
      [ServiceCall.getOptions 5,
       ServiceCall.getResultsDispatchPlot 5 (FormVal.str "ZoneA") (FormVal.str "2030")
         FormVal.undef] := by
  refine ⟨by decide, ?_⟩
  have h := claim9_strictNullSubstitutionOnly.1 svcA 5 stateC9 (by decide)
  simpa [stateC9, initState] using h
